import Mathlib

/-!
Shallow embedding of the convolution reverb engine
(`src/c/convolution_engine.c`, version 2.0.3-C).

C `double` values are modelled as real numbers; parameter fields, which are
only ever combined by field operations and comparisons before they reach a
transcendental function, are carried as rationals and cast to `ℝ` at the
point of use.  C `int` values are modelled as `ℤ` with explicit
truncating division (`Int.tdiv`) and truncating remainder (`Int.tmod`),
matching C's sign conventions.  The sample buffers (`impulse_response`,
`conv_history`, ...) are modelled as total functions `ℤ → ℝ`; a null
pointer is `none`.  `calloc` outcomes at initialization are supplied as
explicit boolean oracles, which is how a fallible allocator enters a pure
model.
-/

/-- Truncation toward zero of a rational, the semantics of a C cast from
`double` to `int` (for in-range values). -/
def rtrunc (q : ℚ) : ℤ := if q < 0 then -(⌊-q⌋) else ⌊q⌋

/-- Truncation toward zero of a real, the semantics of a C cast from
`double` to `int` (for in-range values). -/
noncomputable def ctrunc (x : ℝ) : ℤ := if x < 0 then -(⌊-x⌋) else ⌊x⌋

/-- Constant `MAX_IR_SIZE = MAX_IR_SECONDS * 48000 = 15 * 48000`. -/
def MAX_IR_SIZE : ℤ := 720000

/-- Write `ir[i] += v` on a buffer modelled as a total function. -/
noncomputable def bufAdd (b : ℤ → ℝ) (i : ℤ) (v : ℝ) : ℤ → ℝ :=
  Function.update b i (b i + v)

/-- Model of `fast_rand` (convolution_engine.c:114-117): one step of the 31-bit
linear congruential generator.  The C code updates the `uint32_t` state to
`(state * 1103515245 + 12345) & 0x7fffffff` and returns
`(double)state / 0x7fffffff`.  Returns (value, successor state). -/
def fast_rand (st : ℕ) : ℚ × ℕ :=
  let st' := ((st * 1103515245 + 12345) % 4294967296) &&& 2147483647
  (((st' : ℚ)) / 2147483647, st')

/-- Wrapping of the argument into `[-π, π]` performed by the two `while`
loops at the top of `fast_sin` (convolution_engine.c:122-123). -/
noncomputable def c_wrap (x : ℝ) : ℝ :=
  if Real.pi < x then x - 2 * Real.pi * (⌈(x - Real.pi) / (2 * Real.pi)⌉ : ℤ)
  else if x < -Real.pi then x + 2 * Real.pi * (⌈(-Real.pi - x) / (2 * Real.pi)⌉ : ℤ)
  else x

/-- Model of `fast_sin` (convolution_engine.c:120-132): Bhaskara I's sine
approximation after range reduction. -/
noncomputable def fast_sin (x : ℝ) : ℝ :=
  let w := c_wrap x
  if 0 ≤ w then
    (16 * w * (Real.pi - w)) / (5 * Real.pi * Real.pi - 4 * w * (Real.pi - w))
  else
    (16 * w * (Real.pi + w)) / (5 * Real.pi * Real.pi - 4 * w * (Real.pi + w))

/-- The engine state: the fields of the global `ConvolutionEngine` struct
together with the file-static variables `conv_history`, `history_pos` and
`process_counter` (convolution_engine.c:53-108). -/
structure Engine where
  impulse_response : Option (ℤ → ℝ)
  overlap_buffer : Option (ℤ → ℝ)
  fft_buffer : Option (ℤ → ℝ)
  temp_buffer : Option (ℤ → ℝ)
  ir_length : ℤ
  buffer_size : ℤ
  overlap_size : ℤ
  room_size : ℚ
  decay_time : ℚ
  pre_delay : ℚ
  damping : ℚ
  diffusion : ℚ
  low_freq : ℚ
  high_freq : ℚ
  early_reflections : ℚ
  late_mix : ℚ
  mix_level : ℚ
  sample_rate : ℤ
  ir_type : ℤ
  ir_needs_update : Bool
  initialized : Bool
  rand_state : ℕ
  conv_history : Option (ℤ → ℝ)
  history_pos : ℤ
  process_counter : ℤ

/-- The initial engine: the designated initializer of the global `engine`
(convolution_engine.c:85-101) with the remaining fields zero-initialized,
plus the initial values of the file statics. -/
def initialEngine : Engine where
  impulse_response := none
  overlap_buffer := none
  fft_buffer := none
  temp_buffer := none
  ir_length := 0
  buffer_size := 0
  overlap_size := 0
  room_size := 50
  decay_time := 5/2
  pre_delay := 20
  damping := 50
  diffusion := 80
  low_freq := 50
  high_freq := 50
  early_reflections := 50
  late_mix := 50
  mix_level := 30
  sample_rate := 48000
  ir_type := 0
  ir_needs_update := true
  initialized := false
  rand_state := 123456789
  conv_history := none
  history_pos := 0
  process_counter := 0

/-- IR length computation at the top of `generate_impulse_response`
(convolution_engine.c:580-586): truncate `decay_time * sample_rate`,
cap at `MAX_IR_SIZE`, then raise to at least `sample_rate / 2`. -/
def compute_ir_length (s : Engine) : ℤ :=
  let l0 := rtrunc (s.decay_time * (s.sample_rate : ℚ))
  let l1 := if 720000 < l0 then 720000 else l0
  if l1 < Int.tdiv s.sample_rate 2 then Int.tdiv s.sample_rate 2 else l1

/-- Early-reflection tap offsets in milliseconds
(convolution_engine.c:171-175). -/
def tap_times : List ℚ :=
  [13.7, 19.3, 23.1, 29.7, 31.1, 37.9, 41.3, 43.7,
   47.9, 53.3, 59.1, 61.3, 67.1, 71.3, 73.7, 79.3,
   83.1, 89.7, 97.3, 101.1, 107.9, 113.3]

/-- The diffusion spread loop at the end of each early-reflection tap
(convolution_engine.c:348-350):
`for (j = -spread; j <= spread && delay+j < ir_length && delay+j >= 0; j++)`.
The three conjuncts form the loop condition, so the loop stops for good at
the first index that violates any of them; `fuel` counts the at most
`2*spread+1` candidate iterations. -/
noncomputable def er_spread_go (irLen d : ℤ) (a : ℝ) (spread : ℤ) :
    ℕ → ℤ → (ℤ → ℝ) → (ℤ → ℝ)
  | 0, _, b => b
  | fuel+1, j, b =>
    if d + j < irLen ∧ 0 ≤ d + j then
      er_spread_go irLen d a spread fuel (j+1)
        (bufAdd b (d + j) (a * Real.exp (-(j.natAbs : ℝ) * 0.15) * 1.5 / ((spread : ℝ) + 1)))
    else b

/-- The per-variant `switch` inside the early-reflection loop
(convolution_engine.c:194-343).  Input: current buffer, RNG state, tap
index `i`, tap delay and amplitude.  Output: possibly-updated buffer and
RNG state, and `some (delay, amplitude)` for the taps that fall through to
the diffusion-spread code, `none` for the `continue` paths. -/
noncomputable def er_variant (s : Engine) (irLen pds : ℤ) (i : ℕ)
    (ir : ℤ → ℝ) (r : ℕ) (delay0 : ℤ) (amp1 : ℝ) :
    ((ℤ → ℝ) × ℕ × Option (ℤ × ℝ)) :=
  if s.ir_type = 1 then  -- IR_TYPE_CATHEDRAL
    if i % 3 = 0 then
      (ir, r, some (delay0 + ctrunc (20 * fast_sin ((i : ℝ) * 0.1)), amp1 * 3))
    else if i % 5 = 0 then
      (ir, r, some (delay0 + ctrunc (20 * fast_sin ((i : ℝ) * 0.1)), amp1 * 2))
    else (ir, r, none)
  else if s.ir_type = 2 then  -- IR_TYPE_ROOM
    (ir, r, some ((if i % 4 = 0 then delay0 + 50 else delay0), amp1 * 0.8))
  else if s.ir_type = 3 then  -- IR_TYPE_PLATE
    let p := fast_rand r
    (ir, p.2, some (delay0 + rtrunc (p.1 * 20 - 10),
      amp1 * (1 + 0.5 * fast_sin ((i : ℝ) * 0.7))))
  else if s.ir_type = 4 then  -- IR_TYPE_SPRING
    (ir, r, some (delay0 + ctrunc (20 * fast_sin ((i : ℝ) * 0.5)),
      amp1 * (1 + 0.3 * fast_sin ((i : ℝ) * 2.1))))
  else if s.ir_type = 5 then  -- IR_TYPE_CAVE
    let p := fast_rand r
    (ir, p.2, some (delay0 + rtrunc (p.1 * 100),
      (amp1 * 2.5) * (if i % 7 = 0 then 3 else 1)))
  else if s.ir_type = 6 then  -- IR_TYPE_SHIMMER
    (ir, r, some (rtrunc ((delay0 : ℚ) * (1 - (i : ℚ) * 0.001)), amp1 * (1 + (i : ℝ) * 0.01)))
  else if s.ir_type = 7 then  -- IR_TYPE_FREEZE
    if i % 10 < 3 then (ir, r, some (pds + 100, amp1 * 5))
    else (ir, r, some (delay0, amp1))
  else if s.ir_type = 8 then  -- IR_TYPE_REVERSE
    (ir, r, some (irLen - delay0, amp1 * 2))
  else if s.ir_type = 9 then  -- IR_TYPE_GATED
    if (pds : ℚ) + (s.sample_rate : ℚ) * 0.3 < (delay0 : ℚ) then (ir, r, none)
    else (ir, r, some (delay0, amp1 * 4))
  else if s.ir_type = 10 then  -- IR_TYPE_CHORUS
    let ir' := (List.range 3).foldl (fun b c =>
      if delay0 + (c : ℤ) * 20 < irLen then bufAdd b (delay0 + (c : ℤ) * 20) (amp1 * 0.7)
      else b) ir
    (ir', r, some (delay0, amp1))
  else if s.ir_type = 11 then  -- IR_TYPE_ALIEN
    (ir, r, some (ctrunc ((delay0 : ℝ) * (1 + 0.5 * fast_sin ((delay0 : ℝ) * 0.01))),
      amp1 * (2 + fast_sin ((i : ℝ) * 0.666))))
  else if s.ir_type = 12 then  -- IR_TYPE_UNDERWATER
    (ir, r, some (delay0 + ctrunc (30 * fast_sin ((i : ℝ) * 0.3) * fast_sin ((i : ℝ) * 1.7)),
      amp1 * 1.5))
  else if s.ir_type = 13 then  -- IR_TYPE_METALLIC
    (ir, r, some (delay0 + ctrunc (5 * fast_sin ((i : ℝ) * 10)),
      (if i % 11 = 0 ∨ i % 13 = 0 then amp1 * 4 else amp1)))
  else if s.ir_type = 14 then  -- IR_TYPE_PSYCHEDELIC
    let p1 := fast_rand r
    let d1 := rtrunc ((delay0 : ℚ) * (1 + p1.1))
    let p2 := fast_rand p1.2
    let a1 := amp1 * (1 + 2 * fast_sin ((i : ℝ) * ((p2.1 : ℝ)) * 10))
    let p3 := fast_rand p2.2
    (ir, p3.2, some (d1, if 0.8 < p3.1 then a1 * 5 else a1))
  else if s.ir_type = 15 then  -- IR_TYPE_SLAPBACK
    if i = 0 then (ir, r, some (pds + Int.tdiv s.sample_rate 10, amp1 * 10))
    else (ir, r, none)
  else if s.ir_type = 16 then  -- IR_TYPE_INFINITE
    (ir, r, some (pds + (i : ℤ) * 100, amp1 * ((0.95 : ℝ) ^ i) * 5))
  else if s.ir_type = 17 then  -- IR_TYPE_SCATTERED
    let p1 := fast_rand r
    let p2 := fast_rand p1.2
    (ir, p2.2, some (pds + rtrunc (p1.1 * (irLen : ℚ) * 0.5), amp1 * (p2.1 * 3)))
  else if s.ir_type = 18 then  -- IR_TYPE_DOPPLER
    let motion := fast_sin ((i : ℝ) * 0.1)
    (ir, r, some (ctrunc ((delay0 : ℝ) * (1 + motion * 0.3)), amp1 * (1 + motion)))
  else if s.ir_type = 19 then  -- IR_TYPE_QUANTUM
    let p1 := fast_rand r
    if 0.7 < p1.1 then
      let p2 := fast_rand p1.2
      let p3 := fast_rand p2.2
      (ir, p3.2, some (delay0 + rtrunc (p3.1 * 200 - 100), amp1 * 5 * (p2.1 : ℝ)))
    else (ir, p1.2, none)
  else if s.ir_type = 20 then  -- IR_TYPE_VOID
    (ir, r, some (delay0, if i = 21 then amp1 * 100 else amp1 * 0.01))
  else if s.ir_type = 21 then  -- IR_TYPE_CRYSTALLINE
    if i % 2 = 0 then (ir, r, some (delay0 + (i : ℤ) * 5, amp1 * 2))
    else (ir, r, some (delay0, amp1))
  else if s.ir_type = 22 then  -- IR_TYPE_MAGNETIC
    (ir, r, some (delay0 + ctrunc (10 * fast_sin ((i : ℝ) * 0.2 + fast_sin ((i : ℝ) * 0.05))),
      amp1 * (1 + 0.5 * fast_sin ((i : ℝ) * 0.3))))
  else if s.ir_type = 23 then  -- IR_TYPE_PLASMA
    if (i * i) % 17 < 3 then
      let p1 := fast_rand r
      (ir, p1.2, some (delay0 + rtrunc (p1.1 * 50), amp1 * 8))
    else (ir, r, some (delay0, amp1))
  else if s.ir_type = 24 then  -- IR_TYPE_NIGHTMARE
    let d1 := delay0 + ctrunc (50 * fast_sin ((i : ℝ) * 0.666) * fast_sin ((i : ℝ) * 0.13))
    let a1 := amp1 * (1 + 3 * fast_sin ((i : ℝ) * 6.66))
    (ir, r, some (d1, if i % 13 = 0 then a1 * (-5) else a1))
  else  -- IR_TYPE_HALL and any other value: no case in the switch
    (ir, r, some (delay0, amp1))

/-- One iteration of the early-reflection loop
(convolution_engine.c:184-352). -/
noncomputable def er_tap (s : Engine) (irLen pds : ℤ) (i : ℕ)
    (acc : (ℤ → ℝ) × ℕ) : (ℤ → ℝ) × ℕ :=
  let room_scale : ℚ := 1 + (s.room_size / 20) * 4
  let er_gain : ℚ := s.early_reflections / 3
  let tap : ℚ := tap_times.getD i 0
  let delay0 : ℤ := pds + rtrunc (tap * (s.sample_rate : ℚ) / 1000 * room_scale)
  if delay0 < irLen then
    let distance : ℚ := tap / 120
    let p := fast_rand acc.2
    let amp1 : ℝ := ((er_gain : ℝ) * (0.95 : ℝ) ^ ((distance : ℝ))) *
      (if 0.5 < p.1 then 1 else -1)
    match er_variant s irLen pds i acc.1 p.2 delay0 amp1 with
    | (ir2, r2, none) => (ir2, r2)
    | (ir2, r2, some (d, a)) =>
      let spread : ℤ := rtrunc (10 * (s.diffusion / 80))
      (er_spread_go irLen d a spread (2 * spread + 1).toNat (-spread) ir2, r2)
  else acc

/-- Model of `generate_early_reflections` (convolution_engine.c:169-353), with the
buffer and the RNG state threaded explicitly. -/
noncomputable def generate_early_reflections (s : Engine) (irLen pds : ℤ)
    (ir0 : ℤ → ℝ) (r0 : ℕ) : (ℤ → ℝ) × ℕ :=
  (List.range 22).foldl (fun acc i => er_tap s irLen pds i acc) (ir0, r0)

/-- The diffusion smear loop for one tail reflection
(convolution_engine.c:541-544), with the same stop-at-first-violation
loop-condition semantics as `er_spread_go`; each executed iteration also
draws one random number. -/
noncomputable def tail_smear_go (irLen d : ℤ) (a : ℝ) (smear : ℤ) :
    ℕ → ℤ → (ℤ → ℝ) × ℕ → (ℤ → ℝ) × ℕ
  | 0, _, acc => acc
  | fuel+1, j, acc =>
    if d + j < irLen ∧ 0 ≤ d + j then
      let p := fast_rand acc.2
      tail_smear_go irLen d a smear fuel (j+1)
        (bufAdd acc.1 (d + j)
          (a * (2 * (p.1 : ℝ) - 1) * Real.exp (-(j.natAbs : ℝ) * 0.3) / ((smear : ℝ) + 1)), p.2)
    else acc

/-- The per-variant coloration `switch` inside the tail loop
(convolution_engine.c:384-536).  Returns the possibly-advanced RNG state
and `some (delay, amplitude)`, or `none` on the `continue` paths. -/
noncomputable def tail_variant (s : Engine) (irLen start : ℤ) (i : ℕ)
    (r : ℕ) (delay0 : ℤ) (t : ℝ) (amp1 : ℝ) (lf_boost : ℚ) :
    (ℕ × Option (ℤ × ℝ)) :=
  if s.ir_type = 1 then  -- IR_TYPE_CATHEDRAL
    let a1 := amp1 * (1 + (lf_boost : ℝ) * 5 * Real.exp (-t * 0.05))
    let a2 := if i % 2 = 0 then a1 * 5 else a1
    (r, some (delay0, a2 * (1 + 2 * fast_sin (t * 250)) * (1 + 1.5 * fast_sin (t * 666)) *
      (1 + fast_sin (t * 50))))
  else if s.ir_type = 2 then  -- IR_TYPE_ROOM
    (r, some (delay0, amp1 * Real.exp (-t * 5) *
      (1 + 2 * Real.exp (-((t - 0.05) ^ (2 : ℕ)) * 50)) *
      (1 + fast_sin (t * 1000) + 0.5 * fast_sin (t * 2137))))
  else if s.ir_type = 3 then  -- IR_TYPE_PLATE
    let a1 := amp1 * (1 + 3 * fast_sin (t * 3000 + (i : ℝ) * 0.5)) *
      (1 + 2 * fast_sin (t * 7000)) * (1 + 1.5 * fast_sin (t * 11000)) *
      (1 + fast_sin (t * 15000))
    let d1 := delay0 + ctrunc (30 * fast_sin ((i : ℝ) * 0.2))
    if irLen ≤ d1 then (r, none) else (r, some (d1, a1))
  else if s.ir_type = 4 then  -- IR_TYPE_SPRING
    let d1 := delay0 + ctrunc (100 * fast_sin (t * 200) + 60 * fast_sin (t * 77))
    let d2 := d1 + ctrunc (40 * fast_sin (t * 333))
    if irLen ≤ d2 ∨ d2 < 0 then (r, none)
    else (r, some (d2, amp1 * (1 + 4 * fast_sin (t * 600)) *
      (1 + 2 * Real.exp (-t * 1) * fast_sin (t * 2000)) * (1 + fast_sin (t * 4567))))
  else if s.ir_type = 5 then  -- IR_TYPE_CAVE
    let a1 := amp1 * (1 + (lf_boost : ℝ) * 8) * Real.exp (-t * 1.5)
    let a2 := if Int.tmod (ctrunc (t * 1000)) 500 < 50 then a1 * 3 else a1
    (r, some (delay0, a2 * (1 + 2 * fast_sin (t * 100))))
  else if s.ir_type = 6 then  -- IR_TYPE_SHIMMER
    let a1 := amp1 * Real.exp (-t * 2)
    let d1 := delay0 - ctrunc (t * 50)
    if d1 < 0 then (r, none)
    else (r, some (d1, a1 * (1 + 2 * fast_sin (t * 2000 * (1 + t))) *
      (1 + 1.5 * fast_sin (t * 4000 * (1 + t * 0.5)))))
  else if s.ir_type = 7 then  -- IR_TYPE_FREEZE
    let p := fast_rand r
    let d1 := start + rtrunc ((p.1 * 0.1 + 0.45) * (s.sample_rate : ℚ))
    (p.2, some (d1, (amp1 * 2) * (1 + fast_sin (t * 1000) + fast_sin (t * 2000))))
  else if s.ir_type = 8 then  -- IR_TYPE_REVERSE
    (r, some (delay0, amp1 * (1 - Real.exp (-t * 5)) *
      Real.exp (-((s.decay_time : ℝ) - t) * 3) * (1 + 2 * fast_sin (t * 500))))
  else if s.ir_type = 9 then  -- IR_TYPE_GATED
    let a1 := if 0.5 < t then 0 else amp1 * 10
    (r, some (delay0, a1 * (1 + fast_sin (t * 5000))))
  else if s.ir_type = 10 then  -- IR_TYPE_CHORUS
    let a1 := amp1 * Real.exp (-t * 3)
    let d1 := delay0 + ctrunc (20 * fast_sin (t * 5 + (i : ℝ) * 0.1))
    let d2 := d1 + ctrunc (15 * fast_sin (t * 7))
    if irLen ≤ d2 ∨ d2 < 0 then (r, none)
    else (r, some (d2, a1 * (1 + fast_sin (t * 1000 + (i : ℝ) * 0.5))))
  else if s.ir_type = 11 then  -- IR_TYPE_ALIEN
    let a1 := amp1 * Real.exp (-t * 2 * (1 + fast_sin (t * 0.5))) *
      (1 + 3 * fast_sin (t * 666)) * (1 + 2 * fast_sin (t * 1337)) *
      (1 + 1.5 * fast_sin (t * 3141))
    let d1 := delay0 + ctrunc (50 * fast_sin (t * 10) * fast_sin (t * 0.1))
    if irLen ≤ d1 ∨ d1 < 0 then (r, none) else (r, some (d1, a1))
  else if s.ir_type = 12 then  -- IR_TYPE_UNDERWATER
    let a1 := amp1 * Real.exp (-t * 4) * (1 + (lf_boost : ℝ) * 4)
    let p := fast_rand r
    let a2 := a1 * (1 + 2 * fast_sin (t * 200 + (p.1 : ℝ) * 100)) * (1 + fast_sin (t * 77))
    (p.2, some (delay0 + ctrunc (40 * fast_sin (t * 0.3)), a2))
  else if s.ir_type = 13 then  -- IR_TYPE_METALLIC
    let a1 := amp1 * Real.exp (-t * 3.5) *
      (1 + 4 * fast_sin (t * 2500) * Real.exp (-t * 5)) *
      (1 + 3 * fast_sin (t * 5700) * Real.exp (-t * 8)) *
      (1 + 2 * fast_sin (t * 8900) * Real.exp (-t * 10))
    (r, some (delay0, if Int.tmod (ctrunc (t * 5000)) 1000 < 100 then a1 * 5 else a1))
  else if s.ir_type = 14 then  -- IR_TYPE_PSYCHEDELIC
    let p1 := fast_rand r
    let a1 := amp1 * Real.exp (-t * (1 + 3 * (p1.1 : ℝ)))
    let hres := (List.range 5).foldl (fun (acc : ℝ × ℕ) _ =>
      let ph := fast_rand acc.2
      (acc.1 * (1 + fast_sin (t * (100 + (ph.1 : ℝ) * 10000))), ph.2)) (a1, p1.2)
    let p3 := fast_rand hres.2
    let d1 := delay0 + ctrunc (100 * fast_sin (t * (p3.1 : ℝ) * 100))
    let p4 := fast_rand p3.2
    let d2 := rtrunc ((d1 : ℚ) * (0.5 + p4.1))
    if irLen ≤ d2 ∨ d2 < 0 then (p4.2, none)
    else
      let p5 := fast_rand p4.2
      (p5.2, some (d2, if 0.95 < p5.1 then hres.1 * 10 else hres.1))
  else  -- default: IR_TYPE_HALL and every type with no case (incl. 15-24)
    let a1 := amp1 * (1 + (lf_boost : ℝ) * 2 * Real.exp (-t * 0.3))
    let sf : ℚ := (100 - s.room_size) / 100
    let a2 := a1 * Real.exp (-(sf : ℝ) * (sf : ℝ) * t * 1)
    (r, some (delay0, a2 * (1 + 0.5 * fast_sin (t * 440)) *
      (1 + 0.3 * fast_sin (t * 880)) * (1 + 0.2 * fast_sin (t * 1320))))

/-- One iteration of the stochastic tail loop
(convolution_engine.c:370-550). -/
noncomputable def tail_refl (s : Engine) (irLen start : ℤ) (i : ℕ)
    (acc : (ℤ → ℝ) × ℕ) : (ℤ → ℝ) × ℕ :=
  let decay_rate : ℚ := 2 / s.decay_time
  let lf_boost : ℚ := (s.low_freq / 25) * 3
  let p := fast_rand acc.2
  let delay0 : ℤ := start + ctrunc (((p.1 : ℝ)) ^ ((0.5 : ℝ)) * ((irLen : ℝ) - (start : ℝ)))
  if delay0 < irLen then
    let t : ℝ := (delay0 : ℝ) / (s.sample_rate : ℝ)
    let amp0 : ℝ := Real.exp (-(decay_rate : ℝ) * t)
    let amp1 : ℝ := if 50 < s.damping then
        amp0 * Real.exp (-(((s.damping : ℝ) - 50) / 50) * (((s.damping : ℝ) - 50) / 50) * t * 10)
      else amp0
    match tail_variant s irLen start i p.2 delay0 t amp1 lf_boost with
    | (r2, none) => (acc.1, r2)
    | (r2, some (d, a)) =>
      if 50 < s.diffusion then
        let smear : ℤ := rtrunc ((s.diffusion - 50) * 0.2)
        tail_smear_go irLen d a smear (2 * smear + 1).toNat (-smear) (acc.1, r2)
      else
        let p2 := fast_rand r2
        (bufAdd acc.1 d (a * (2 * (p2.1 : ℝ) - 1) * 10), p2.2)
  else (acc.1, p.2)

/-- Model of `generate_reverb_tail` (convolution_engine.c:356-551). -/
noncomputable def generate_reverb_tail (s : Engine) (irLen start : ℤ)
    (ir0 : ℤ → ℝ) (r0 : ℕ) : (ℤ → ℝ) × ℕ :=
  let density : ℚ := 5 + (s.room_size / 20) * 50
  let num0 : ℤ := rtrunc ((irLen : ℚ) * 0.5 * density)
  let num1 : ℤ := if num0 < 50000 then 50000 else num0
  let num : ℤ := if 200000 < num1 then 200000 else num1
  (List.range num.toNat).foldl (fun acc i => tail_refl s irLen start i acc) (ir0, r0)

/-- One step of the two single-pole filters of `apply_spectral_shaping`
(convolution_engine.c:561-569): the low-pass output is written to the
buffer, immediately re-read by the high-pass, and the high-pass state
subtracted in place. -/
noncomputable def shaping_step (lp_cutoff hp_cutoff : ℝ)
    (acc : (ℤ → ℝ) × ℝ × ℝ) (i : ℕ) : (ℤ → ℝ) × ℝ × ℝ :=
  let lp' := acc.2.1 + (acc.1 (i : ℤ) - acc.2.1) * lp_cutoff
  let hp' := acc.2.2 + (lp' - acc.2.2) * hp_cutoff
  (Function.update acc.1 (i : ℤ) (lp' - hp'), lp', hp')

/-- Model of `apply_spectral_shaping` (convolution_engine.c:554-570). -/
noncomputable def apply_spectral_shaping (s : Engine) (irLen : ℤ)
    (ir0 : ℤ → ℝ) : ℤ → ℝ :=
  let lp_cutoff : ℚ := 0.1 + (s.high_freq / 100) * 0.4
  let hp_cutoff : ℚ := 0.001 + (100 - s.low_freq) / 100 * 0.05
  ((List.range irLen.toNat).foldl (shaping_step (lp_cutoff : ℝ) (hp_cutoff : ℝ))
    (ir0, 0, 0)).1

/-- The per-type boost factor applied to the normalization factor
(convolution_engine.c:621-640). -/
def ir_norm_boost (irt : ℤ) : ℝ :=
  if irt = 1 then 2 else if irt = 3 then 1.8 else if irt = 4 then 2.5
  else if irt = 2 then 1.5 else 1

/-- The normalization / boost pass of `generate_impulse_response`
(convolution_engine.c:600-655): peak detection, the capped `10/peak`
normalization factor, the per-type boost, and the even-index harmonic
multiplier. -/
noncomputable def normalize_ir (s : Engine) (irLen : ℤ) (ir : ℤ → ℝ) : ℤ → ℝ :=
  let max_val : ℝ := (List.range irLen.toNat).foldl (fun m i => max m |ir (i : ℤ)|) 0
  if 0 < max_val then
    let nf0 := 10 / max_val
    let nf1 := if 20 < nf0 then 20 else nf0
    let nf := nf1 * ir_norm_boost s.ir_type
    fun idx =>
      if 0 ≤ idx ∧ idx < irLen then
        (let v := ir idx * nf
         if Int.tmod idx 2 = 0 ∧ (0.1 : ℝ) < |v| then v * 1.02 else v)
      else ir idx
  else ir

/-- Model of `generate_impulse_response` (convolution_engine.c:573-679): clear the
buffer, compute the clamped IR length, run the four passes, store the new
buffer and clear the dirty flag. -/
noncomputable def generate_impulse_response (s : Engine) : Engine :=
  let irLen := compute_ir_length s
  let pds : ℤ := rtrunc (s.pre_delay * (s.sample_rate : ℚ) / 1000)
  let er := generate_early_reflections s irLen pds (fun _ => 0) s.rand_state
  let tail_start : ℤ := pds + rtrunc ((0.02 : ℚ) * (s.sample_rate : ℚ))
  let tl := generate_reverb_tail s irLen tail_start er.1 er.2
  let normed := normalize_ir s irLen (apply_spectral_shaping s irLen tl.1)
  { s with impulse_response := some normed, ir_length := irLen,
           ir_needs_update := false, rand_state := tl.2 }

/-- The dry-gain half of the piecewise dry/wet law of `process_convolution_`
(convolution_engine.c:709-738), as a function of `mix = mix_level / 100`. -/
noncomputable def dry_gain_core (mix : ℝ) : ℝ :=
  if mix < 0.01 then 1.0
  else if mix < 0.1 then 1.0
  else if mix < 0.3 then 1.0 * (1.0 - (mix - 0.1) * 2.5)
  else if mix < 0.5 then 0.5 * (1.0 - (mix - 0.3) * 2.0)
  else if mix < 0.8 then 0.1 * (1.0 - (mix - 0.5) * 2.0)
  else 0.01

/-- The wet-gain half of the piecewise dry/wet law of `process_convolution_`
(convolution_engine.c:709-738), as a function of `mix = mix_level / 100`.
`pow(x, 2.5)` and `pow(x, 1.5)` are real powers; `pow(x, 2.0)` and
`pow(x, 3.0)` are exact integer powers. -/
noncomputable def wet_gain_core (mix : ℝ) : ℝ :=
  if mix < 0.01 then mix * 1000.0
  else if mix < 0.1 then 10.0 * (mix * 10.0) ^ ((2.5 : ℝ))
  else if mix < 0.3 then 316.0 * (mix * 3.33) ^ ((1.5 : ℝ))
  else if mix < 0.5 then 1000.0 + (mix - 0.3) * 5000.0
  else if mix < 0.8 then 2000.0 * (mix * 2.0) ^ (2 : ℕ)
  else 5120.0 * (mix * 1.25) ^ (3 : ℕ)

/-- Dry gain as a function of the percent-scale mix level. -/
noncomputable def dry_gain (mixLevel : ℝ) : ℝ := dry_gain_core (mixLevel / 100)

/-- Wet gain as a function of the percent-scale mix level. -/
noncomputable def wet_gain (mixLevel : ℝ) : ℝ := wet_gain_core (mixLevel / 100)

/-- The per-type extra wet boost inside the `n <= 4096` branch of
`process_convolution_` (convolution_engine.c:745-760). -/
def live_boost (irt : ℤ) : ℝ :=
  if irt = 1 then 2 else if irt = 3 then 1.8 else if irt = 4 then 2.2 else 1

/-- The wet gain actually used by `process_convolution_` for a block of
`n` samples (convolution_engine.c:740-761): for `n <= 4096` the base wet
gain is multiplied by 5 and by the per-type live boost. -/
noncomputable def effective_wet_gain (mixLevel : ℝ) (irt n : ℤ) : ℝ :=
  if n ≤ 4096 then wet_gain mixLevel * 5 * live_boost irt else wet_gain mixLevel

/-- The 3:1 compression stage applied to each output sample
(convolution_engine.c:821-828): magnitudes above 0.7 are compressed and
capped at the soft ceiling 1.8, preserving sign. -/
noncomputable def compress (x : ℝ) : ℝ :=
  if 0.7 < |x| then
    (if 0 < x then 1 else -1) * min (0.7 + (|x| - 0.7) * 0.3) 1.8
  else x

/-- The final saturating limiter (convolution_engine.c:831-835). -/
noncomputable def limiter (x : ℝ) : ℝ :=
  if 1.9 < x then 1.9 + 0.1 * Real.tanh ((x - 1.9) * 10)
  else if x < -1.9 then -1.9 - 0.1 * Real.tanh ((-x - 1.9) * 10)
  else x

/-- One iteration of the per-sample loop of `process_convolution_`
(convolution_engine.c:784-839): write the input into the circular history,
direct convolution against the IR (plus the two extra layers when
`mix_level > 30`), dry/wet mix, compression, limiting, cursor advance.
Accumulator: (outputs so far, history buffer, write cursor). -/
noncomputable def conv_step (irA : ℤ → ℝ) (irLen : ℤ) (mixBig : Bool)
    (dry wet : ℝ) (acc : List ℝ × (ℤ → ℝ) × ℤ) (x : ℝ) : List ℝ × (ℤ → ℝ) × ℤ :=
  let hist1 := Function.update acc.2.1 acc.2.2 x
  let pos := acc.2.2
  let wet0 := ∑ j ∈ Finset.range irLen.toNat,
    hist1 (Int.tmod (pos - (j : ℤ) + 720000) 720000) * irA (j : ℤ)
  let shimmer := if mixBig then
      ∑ k ∈ Finset.range ((irLen.toNat + 1) / 2),
        hist1 (Int.tmod (pos - (2 * (k : ℤ)) + 720000) 720000) * irA (2 * (k : ℤ)) * 0.3
    else 0
  let delayed := if mixBig then
      ∑ j ∈ Finset.range (irLen - 1).toNat,
        hist1 (Int.tmod (pos - Int.tdiv ((j : ℤ) * 3) 2 + 720000) 720000) * irA (j : ℤ) * 0.2
    else 0
  let out := limiter (compress (dry * x + wet * (wet0 + delayed + shimmer)))
  (acc.1 ++ [out], hist1, Int.tmod (pos + 1) 720000)

/-- The IR-regeneration prologue of `process_convolution_`
(convolution_engine.c:692-701): when the dirty flag is set, regenerate the
IR, zero the convolution history (if allocated) and reset the cursor. -/
noncomputable def regen_if_dirty (s : Engine) : Engine :=
  if s.ir_needs_update then
    let sg := generate_impulse_response s
    { sg with
      conv_history := match sg.conv_history with
        | none => none
        | some _ => some (fun _ => 0),
      history_pos := 0 }
  else s

/-- The history (re)allocation step of `process_convolution_`
(convolution_engine.c:704-707). -/
noncomputable def ensure_history (s : Engine) : Engine :=
  if s.conv_history.isNone then { s with conv_history := some (fun _ => 0), history_pos := 0 }
  else s

/-- Model of `process_convolution_` (convolution_engine.c:682-840).  Returns the
output block and the new engine state.  With the engine uninitialized or
the IR pointer null the call is a pass-through. -/
noncomputable def process_convolution_ (s : Engine) (input : List ℝ) : List ℝ × Engine :=
  let n : ℤ := input.length
  if !s.initialized || s.impulse_response.isNone then (input, s)
  else
    let s2 := ensure_history (regen_if_dirty s)
    let irA := s2.impulse_response.getD (fun _ => 0)
    let hist0 := s2.conv_history.getD (fun _ => 0)
    let dry := dry_gain ((s2.mix_level : ℝ))
    let wet := effective_wet_gain ((s2.mix_level : ℝ)) s2.ir_type n
    let r := input.foldl (conv_step irA s2.ir_length (decide (30 < s2.mix_level)) dry wet)
      ([], hist0, s2.history_pos)
    (r.1, { s2 with process_counter := s2.process_counter + 1,
                    conv_history := some r.2.1, history_pos := r.2.2 })

/-- The immediate-regeneration epilogue shared by `set_param_float_`
(convolution_engine.c:926-939) and `set_ir_type_`
(convolution_engine.c:1024-1038): set the dirty flag, regenerate at once,
and clear the convolution history (when allocated). -/
noncomputable def regen_now (s : Engine) : Engine :=
  let sg := generate_impulse_response { s with ir_needs_update := true }
  match sg.conv_history with
  | none => sg
  | some _ => { sg with conv_history := some (fun _ => 0), history_pos := 0 }

/-- The common tail of every `set_param_float_` case: if the value changed
by more than the 0.01 tolerance and the engine is initialized, regenerate
immediately; otherwise only the stored value changes
(convolution_engine.c:926-939). -/
noncomputable def set_param_with (s' : Engine) (nu : Bool) : Engine :=
  if nu && s'.initialized then regen_now s' else s'

/-- Model of `set_param_float_` (convolution_engine.c:843-939).  Parameter ids:
0 roomSize, 1 decayTime (clamped to [0.1,10]), 2 preDelay (clamped to
[0,100]), 3 damping, 4 lowFreq, 5 diffusion, 6 mix (clamped to [0,100],
never triggers regeneration), 7 earlyReflections; any other id is a
no-op. -/
noncomputable def set_param_float_ (pid : ℤ) (v : ℚ) (s : Engine) : Engine :=
  if pid = 0 then
    set_param_with { s with room_size := v } (decide ((0.01 : ℚ) < |s.room_size - v|))
  else if pid = 1 then
    let c := max (0.1 : ℚ) (min 10 v)
    set_param_with { s with decay_time := c } (decide ((0.01 : ℚ) < |s.decay_time - c|))
  else if pid = 2 then
    let c := max (0 : ℚ) (min 100 v)
    set_param_with { s with pre_delay := c } (decide ((0.01 : ℚ) < |s.pre_delay - c|))
  else if pid = 3 then
    set_param_with { s with damping := v } (decide ((0.01 : ℚ) < |s.damping - v|))
  else if pid = 4 then
    set_param_with { s with low_freq := v } (decide ((0.01 : ℚ) < |s.low_freq - v|))
  else if pid = 5 then
    set_param_with { s with diffusion := v } (decide ((0.01 : ℚ) < |s.diffusion - v|))
  else if pid = 6 then
    { s with mix_level := max (0 : ℚ) (min 100 v) }
  else if pid = 7 then
    set_param_with { s with early_reflections := v }
      (decide ((0.01 : ℚ) < |s.early_reflections - v|))
  else s

/-- Model of `set_parameter_` (convolution_engine.c:942-981): the string-keyed
dispatcher over `set_param_float_`; the name is copied through a 63-char
`strncpy`; unknown names are a no-op. -/
noncomputable def set_parameter_ (nm : String) (v : ℚ) (s : Engine) : Engine :=
  let t := nm.take 63
  if t = "roomSize" then set_param_float_ 0 v s
  else if t = "decayTime" then set_param_float_ 1 v s
  else if t = "preDelay" then set_param_float_ 2 v s
  else if t = "damping" then set_param_float_ 3 v s
  else if t = "lowFreq" then set_param_float_ 4 v s
  else if t = "diffusion" then set_param_float_ 5 v s
  else if t = "mix" then set_param_float_ 6 v s
  else if t = "earlyReflections" then set_param_float_ 7 v s
  else s

/-- The name-to-code comparison chain of `set_ir_type_`
(convolution_engine.c:992-1022): the fifteen recognized variant names map
to the codes 0..14; any other string yields the current type `dflt`
unchanged. -/
def variant_code (t : String) (dflt : ℤ) : ℤ :=
  if t = "hall" then 0 else if t = "cathedral" then 1 else if t = "room" then 2
  else if t = "plate" then 3 else if t = "spring" then 4 else if t = "cave" then 5
  else if t = "shimmer" then 6 else if t = "freeze" then 7 else if t = "reverse" then 8
  else if t = "gated" then 9 else if t = "chorus" then 10 else if t = "alien" then 11
  else if t = "underwater" then 12 else if t = "metallic" then 13
  else if t = "psychedelic" then 14 else dflt

/-- Model of `set_ir_type_` (convolution_engine.c:984-1039): the name is copied
through a 31-char `strncpy` and compared against the fifteen recognized
variant names; any other string leaves the type unchanged.  On a change
the IR is regenerated immediately when the engine is initialized. -/
noncomputable def set_ir_type_ (nm : String) (s : Engine) : Engine :=
  let nt : ℤ := variant_code (nm.take 31) s.ir_type
  if nt ≠ s.ir_type then
    let s' := { s with ir_type := nt, ir_needs_update := true }
    if s.initialized then regen_now { s with ir_type := nt } else s'
  else s

/-- Model of `init_convolution_engine_` (convolution_engine.c:135-166).  The five
booleans are the outcomes of the five `calloc` calls (impulse_response,
overlap_buffer, fft_buffer, temp_buffer, conv_history); a failed `calloc`
is a null pointer, which the C code never checks; `initialized` is set to
1 unconditionally. -/
def init_convolution_engine_ (sr : ℤ) (a1 a2 a3 a4 a5 : Bool) (s : Engine) : Engine :=
  { s with
    sample_rate := sr
    ir_needs_update := true
    impulse_response := match s.impulse_response with
      | none => if a1 then some (fun _ => 0) else none
      | some b => some b
    overlap_buffer := match s.overlap_buffer with
      | none => if a2 then some (fun _ => 0) else none
      | some b => some b
    fft_buffer := match s.fft_buffer with
      | none => if a3 then some (fun _ => 0) else none
      | some b => some b
    temp_buffer := match s.temp_buffer with
      | none => if a4 then some (fun _ => 0) else none
      | some b => some b
    conv_history := match s.conv_history with
      | none => if a5 then some (fun _ => 0) else none
      | some b => some b
    buffer_size := 1440000
    initialized := true }

/-- Model of `cleanup_convolution_engine_` (convolution_engine.c:1042-1066):
releases every buffer, clears the initialized flag and resets the history
cursor and the process counter — and nothing else. -/
def cleanup_convolution_engine_ (s : Engine) : Engine :=
  { s with
    impulse_response := none
    overlap_buffer := none
    fft_buffer := none
    temp_buffer := none
    conv_history := none
    initialized := false
    history_pos := 0
    process_counter := 0 }

/-- Model of `is_initialized_` (convolution_engine.c:1069-1071). -/
def is_initialized_ (s : Engine) : ℤ := if s.initialized then 1 else 0

/-- A call through the public engine surface, used to state reachability
invariants.  `initOp` carries the allocation outcomes of its five
`calloc` calls. -/
inductive PublicOp where
  | initOp (sr : ℤ) (a1 a2 a3 a4 a5 : Bool)
  | processOp (input : List ℝ)
  | setParamOp (pid : ℤ) (v : ℚ)
  | setParamByNameOp (nm : String) (v : ℚ)
  | setIrTypeOp (nm : String)
  | cleanupOp

/-- Apply one public operation to an engine state. -/
noncomputable def apply_op (op : PublicOp) (s : Engine) : Engine :=
  match op with
  | PublicOp.initOp sr a1 a2 a3 a4 a5 => init_convolution_engine_ sr a1 a2 a3 a4 a5 s
  | PublicOp.processOp input => (process_convolution_ s input).2
  | PublicOp.setParamOp pid v => set_param_float_ pid v s
  | PublicOp.setParamByNameOp nm v => set_parameter_ nm v s
  | PublicOp.setIrTypeOp nm => set_ir_type_ nm s
  | PublicOp.cleanupOp => cleanup_convolution_engine_ s

/-- Run a sequence of public operations. -/
noncomputable def run_ops (ops : List PublicOp) (s : Engine) : Engine :=
  ops.foldl (fun t op => apply_op op t) s

/-- The fifteen variant names recognized by `set_ir_type_`. -/
def recognized_names : List String :=
  ["hall", "cathedral", "room", "plate", "spring", "cave", "shimmer", "freeze",
   "reverse", "gated", "chorus", "alien", "underwater", "metallic", "psychedelic"]

/-- A fully successfully initialized engine at 48 kHz, used as a concrete
test state. -/
def engine_ready : Engine :=
  init_convolution_engine_ 48000 true true true true true initialEngine

/-- Name constant for the cathedral variant. -/
def cathedral_name : String := "cathedral"

/-- Name constant for the (unreachable) slapback variant. -/
def slapback_name : String := "slapback"

/-! ### Helper lemmas -/

theorem generate_ir_needs_update (s : Engine) :
    (generate_impulse_response s).ir_needs_update = false := rfl

theorem generate_ir_length_eq (s : Engine) :
    (generate_impulse_response s).ir_length = compute_ir_length s := rfl

theorem generate_ir_type_eq (s : Engine) :
    (generate_impulse_response s).ir_type = s.ir_type := rfl

theorem generate_conv_history_eq (s : Engine) :
    (generate_impulse_response s).conv_history = s.conv_history := rfl

theorem regen_now_ir_type (s : Engine) : (regen_now s).ir_type = s.ir_type := by
  unfold regen_now
  dsimp only
  split <;> rfl

theorem set_param_with_ir_type (s' : Engine) (b : Bool) :
    (set_param_with s' b).ir_type = s'.ir_type := by
  unfold set_param_with
  split
  · exact regen_now_ir_type s'
  · rfl

theorem set_param_float_ir_type (pid : ℤ) (v : ℚ) (s : Engine) :
    (set_param_float_ pid v s).ir_type = s.ir_type := by
  unfold set_param_float_
  split_ifs <;> simp [set_param_with_ir_type]

theorem set_parameter_ir_type (nm : String) (v : ℚ) (s : Engine) :
    (set_parameter_ nm v s).ir_type = s.ir_type := by
  simp only [set_parameter_]
  split_ifs <;> simp [set_param_float_ir_type]

theorem regen_if_dirty_ir_type (s : Engine) : (regen_if_dirty s).ir_type = s.ir_type := by
  unfold regen_if_dirty
  split <;> rfl

theorem ensure_history_ir_type (s : Engine) : (ensure_history s).ir_type = s.ir_type := by
  unfold ensure_history
  split <;> rfl

theorem process_ir_type (s : Engine) (input : List ℝ) :
    (process_convolution_ s input).2.ir_type = s.ir_type := by
  unfold process_convolution_
  split
  · rfl
  · simp [ensure_history_ir_type, regen_if_dirty_ir_type]

/-- Shared pass-through fact: with the engine uninitialized or the IR
pointer null, `process_convolution_` copies the input and leaves the
state untouched. -/
theorem process_passthrough_of (s : Engine) (input : List ℝ)
    (h : s.initialized = false ∨ s.impulse_response = none) :
    process_convolution_ s input = (input, s) := by
  unfold process_convolution_
  rcases h with h | h <;> simp [h]

/-! ### C4: pass-through before initialization -/

/-- C4: for every input block of any length and contents, if `process` is
called when the engine is not initialized or has no impulse-response
buffer, the output equals the input sample for sample and the state is
untouched (the call never fails). -/
theorem c4_passthrough_before_init (s : Engine) (input : List ℝ)
    (h : s.initialized = false ∨ s.impulse_response = none) :
    process_convolution_ s input = (input, s) :=
  process_passthrough_of s input h

/-- Witness for C4 at the freshly constructed engine and a concrete block. -/
theorem c4_passthrough_before_init_witness :
    (initialEngine.initialized = false ∨ initialEngine.impulse_response = none) ∧
    process_convolution_ initialEngine [2, -3] = ([2, -3], initialEngine) :=
  ⟨Or.inl rfl, c4_passthrough_before_init initialEngine [2, -3] (Or.inl rfl)⟩

/-! ### C5: IR length invariant -/

/-- C5: for every decay time in [0.1, 10.0] s at sample rate 48000, the
generated IR length equals
`clamp(trunc(decay_time * 48000), 48000/2, MAX_IR_SIZE)`, hence lies in
`[24000, 720000]`. -/
theorem compute_ir_length_at_48000 (s : Engine) (hsr : s.sample_rate = 48000) :
    compute_ir_length s = max 24000 (min 720000 (rtrunc (s.decay_time * 48000))) := by
  unfold compute_ir_length
  rw [hsr]
  have htd : Int.tdiv 48000 2 = 24000 := by decide
  rw [htd]
  push_cast
  rw [max_def, min_def]
  split_ifs <;> omega

theorem c5_ir_length_invariant (s : Engine) (hsr : s.sample_rate = 48000)
    (hlo : (0.1 : ℚ) ≤ s.decay_time) (hhi : s.decay_time ≤ 10) :
    (generate_impulse_response s).ir_length =
      max 24000 (min 720000 (rtrunc (s.decay_time * 48000))) ∧
    24000 ≤ (generate_impulse_response s).ir_length ∧
    (generate_impulse_response s).ir_length ≤ 720000 := by
  have e : (generate_impulse_response s).ir_length = compute_ir_length s :=
    generate_ir_length_eq s
  have e2 : compute_ir_length s = max 24000 (min 720000 (rtrunc (s.decay_time * 48000))) :=
    compute_ir_length_at_48000 s hsr
  refine ⟨e.trans e2, ?_, ?_⟩
  · rw [e, e2]; exact le_max_left _ _
  · rw [e, e2]; exact max_le (by norm_num) (min_le_left _ _)

/-- Witness for C5 at the default engine (decay 2.5 s, 48 kHz). -/
theorem c5_ir_length_invariant_witness :
    initialEngine.sample_rate = 48000 ∧ (0.1 : ℚ) ≤ initialEngine.decay_time ∧
    initialEngine.decay_time ≤ 10 ∧
    ((generate_impulse_response initialEngine).ir_length =
      max 24000 (min 720000 (rtrunc (initialEngine.decay_time * 48000))) ∧
     24000 ≤ (generate_impulse_response initialEngine).ir_length ∧
     (generate_impulse_response initialEngine).ir_length ≤ 720000) :=
  ⟨rfl, by norm_num [initialEngine], by norm_num [initialEngine],
    c5_ir_length_invariant initialEngine rfl (by norm_num [initialEngine])
      (by norm_num [initialEngine])⟩

/-! ### C7: the deterministic noise source -/

/-- At state 230538014 the LCG update lands exactly on `0x7fffffff`. -/
theorem fast_rand_state_at_witness_point :
    (((230538014 * 1103515245 + 12345) % 4294967296) &&& 2147483647 : ℕ) = 2147483647 := by
  decide

/-- At state 230538014 the returned value is exactly 1. -/
theorem fast_rand_value_at_witness_point : (fast_rand 230538014).1 = 1 := by
  show ((((230538014 * 1103515245 + 12345) % 4294967296) &&& 2147483647 : ℕ) : ℚ) /
    2147483647 = 1
  rw [fast_rand_state_at_witness_point]
  norm_num

/-- C7 counterexample: at the (reachable) generator state 230538014 one
step of `fast_rand` returns exactly 1, which is not in the half-open
interval [0, 1) claimed by the specification. -/
theorem c7_noise_value_counterexample :
    (fast_rand 230538014).1 = 1 ∧ ¬ (fast_rand 230538014).1 < 1 :=
  ⟨fast_rand_value_at_witness_point, by
    rw [fast_rand_value_at_witness_point]; exact lt_irrefl 1⟩

/-- C7 amended: one step of `fast_rand` returns a value in the closed
interval [0, 1] — the value 1 is attained, at state 230538014 — and the
successor state again fits in 31 bits.  (Value and successor state are a
pure function of the previous state by construction: `fast_rand` is a
function of the state alone.) -/
theorem c7_noise_range_amended :
    (∀ st : ℕ, 0 ≤ (fast_rand st).1 ∧ (fast_rand st).1 ≤ 1 ∧
      (fast_rand st).2 ≤ 2147483647) ∧
    (fast_rand 230538014).1 = 1 := by
  constructor
  · intro st
    have hle : ((st * 1103515245 + 12345) % 4294967296) &&& 2147483647 ≤ 2147483647 :=
      Nat.and_le_right
    refine ⟨?_, ?_, hle⟩
    · unfold fast_rand
      positivity
    · unfold fast_rand
      rw [div_le_one (by norm_num)]
      exact_mod_cast hle
  · exact fast_rand_value_at_witness_point

/-! ### C8: allocation failure at initialization -/

/-- The engine after an initialization in which every `calloc` failed. -/
def engine_alloc_failed : Engine :=
  init_convolution_engine_ 48000 false false false false false initialEngine

/-- C8 counterexample: when every buffer allocation fails during
initialization, the engine still marks itself initialized and
`is_initialized_` still reports 1 — the failure is not surfaced and the
engine does not end in a not-ready state, contradicting the claim. -/
theorem c8_alloc_failure_counterexample :
    engine_alloc_failed.initialized = true ∧
    is_initialized_ engine_alloc_failed = 1 ∧
    engine_alloc_failed.impulse_response = none :=
  ⟨rfl, rfl, rfl⟩

/-- C8 amended: buffer-allocation failure at initialization is silently
ignored: `init_convolution_engine_` sets the initialized flag and
`is_initialized_` reports 1 regardless of the allocation outcomes, leaving
the engine claiming readiness with a missing IR buffer; a subsequent
`process` call then degrades to a pass-through instead of failing. -/
theorem c8_alloc_failure_amended (sr : ℤ) (a2 a3 a4 a5 : Bool) (s : Engine)
    (input : List ℝ) (h : s.impulse_response = none) :
    (init_convolution_engine_ sr false a2 a3 a4 a5 s).initialized = true ∧
    is_initialized_ (init_convolution_engine_ sr false a2 a3 a4 a5 s) = 1 ∧
    (init_convolution_engine_ sr false a2 a3 a4 a5 s).impulse_response = none ∧
    process_convolution_ (init_convolution_engine_ sr false a2 a3 a4 a5 s) input =
      (input, init_convolution_engine_ sr false a2 a3 a4 a5 s) := by
  have hnone : (init_convolution_engine_ sr false a2 a3 a4 a5 s).impulse_response = none := by
    simp [init_convolution_engine_, h]
  exact ⟨rfl, rfl, hnone,
    process_passthrough_of _ input (Or.inr hnone)⟩

/-- Witness for C8 at the fresh engine with a failing allocator. -/
theorem c8_alloc_failure_amended_witness :
    initialEngine.impulse_response = none ∧
    ((init_convolution_engine_ 44100 false true true true true initialEngine).initialized = true ∧
     is_initialized_ (init_convolution_engine_ 44100 false true true true true initialEngine) = 1 ∧
     (init_convolution_engine_ 44100 false true true true true initialEngine).impulse_response = none ∧
     process_convolution_ (init_convolution_engine_ 44100 false true true true true initialEngine) [7] =
       ([7], init_convolution_engine_ 44100 false true true true true initialEngine)) :=
  ⟨rfl, c8_alloc_failure_amended 44100 true true true true initialEngine [7] rfl⟩

/-! ### C3: setter side effects -/

theorem regen_now_ir_needs_update (s : Engine) :
    (regen_now s).ir_needs_update = false := by
  unfold regen_now
  dsimp only
  split <;> rfl

theorem regen_now_ir_length (s : Engine) :
    (regen_now s).ir_length = compute_ir_length { s with ir_needs_update := true } := by
  unfold regen_now
  dsimp only
  split <;> rfl

theorem regen_now_history_pos (s : Engine) (b : ℤ → ℝ) (h : s.conv_history = some b) :
    (regen_now s).history_pos = 0 := by
  unfold regen_now
  dsimp only
  have hg : (generate_impulse_response { s with ir_needs_update := true }).conv_history =
      some b := h
  rw [hg]

theorem set_param_decay_regen (s : Engine) (v : ℚ) (hinit : s.initialized = true)
    (hch : (0.01 : ℚ) < |s.decay_time - max 0.1 (min 10 v)|) :
    set_param_float_ 1 v s = regen_now { s with decay_time := max 0.1 (min 10 v) } := by
  unfold set_param_float_ set_param_with
  have h1 : ¬ ((1 : ℤ) = 0) := by norm_num
  rw [if_neg h1, if_pos rfl]
  dsimp only
  rw [if_pos]
  simp [hinit, hch]

theorem engine_ready_decay_abs :
    (0.01 : ℚ) < |engine_ready.decay_time - max 0.1 (min 10 5)| := by
  have h1 : engine_ready.decay_time = 5/2 := rfl
  have h2 : max (0.1 : ℚ) (min 10 5) = 5 := by norm_num
  rw [h1, h2]
  have h3 : |(5/2 : ℚ) - 5| = 5/2 := by
    rw [abs_eq] <;> norm_num
  rw [h3]
  norm_num

/-- C3 counterexample: on an initialized engine (`engine_ready`), a single
call to the parameter setter with a materially different decay time
performs IR synthesis inside the setter itself: afterwards the dirty flag
is already cleared (rather than set), and the engine's `ir_length` has
been recomputed from the new decay time (0 before the call, 240000 after).
This is a side effect beyond the stored value and the dirty flag, and the
synthesis was not deferred to the next processing call. -/
theorem c3_setter_side_effects_counterexample :
    engine_ready.initialized = true ∧
    engine_ready.ir_length = 0 ∧
    (set_param_float_ 1 5 engine_ready).ir_needs_update = false ∧
    (set_param_float_ 1 5 engine_ready).ir_length = 240000 ∧
    (set_param_float_ 1 5 engine_ready).history_pos = 0 := by
  have hset : set_param_float_ 1 5 engine_ready =
      regen_now { engine_ready with decay_time := max 0.1 (min 10 5) } :=
    set_param_decay_regen engine_ready 5 rfl engine_ready_decay_abs
  refine ⟨rfl, rfl, ?_, ?_, ?_⟩
  · rw [hset, regen_now_ir_needs_update]
  · rw [hset, regen_now_ir_length]
    unfold compute_ir_length
    have hdec : ({ { engine_ready with decay_time := max 0.1 (min 10 5) } with
        ir_needs_update := true } : Engine).decay_time = (5 : ℚ) := by
      show max (0.1 : ℚ) (min 10 5) = 5
      norm_num
    have hsr : ({ { engine_ready with decay_time := max 0.1 (min 10 5) } with
        ir_needs_update := true } : Engine).sample_rate = (48000 : ℤ) := rfl
    rw [hdec, hsr]
    have htd : Int.tdiv 48000 2 = 24000 := by decide
    rw [htd]
    have hfl : rtrunc ((5 : ℚ) * ((48000 : ℤ) : ℚ)) = 240000 := by
      unfold rtrunc
      norm_num
    rw [hfl]
    norm_num
  · exact hset ▸ regen_now_history_pos _ (fun _ => 0) rfl

theorem regen_now_decay_time (s : Engine) :
    (regen_now s).decay_time = s.decay_time := by
  unfold regen_now
  dsimp only
  split <;> rfl

theorem setter_uninit_frame (pid : ℤ) (v : ℚ) (s : Engine)
    (h : s.initialized = false) :
    (set_param_float_ pid v s).ir_needs_update = s.ir_needs_update ∧
    (set_param_float_ pid v s).impulse_response = s.impulse_response ∧
    (set_param_float_ pid v s).ir_length = s.ir_length ∧
    (set_param_float_ pid v s).conv_history = s.conv_history ∧
    (set_param_float_ pid v s).history_pos = s.history_pos ∧
    (set_param_float_ pid v s).ir_type = s.ir_type := by
  have hw : ∀ (s' : Engine) (b : Bool), s'.initialized = false → set_param_with s' b = s' := by
    intro s' b hb
    unfold set_param_with
    rw [hb]
    simp
  unfold set_param_float_
  split_ifs <;>
    first
      | exact ⟨rfl, rfl, rfl, rfl, rfl, rfl⟩
      | (rw [hw] <;> first | exact h | exact ⟨rfl, rfl, rfl, rfl, rfl, rfl⟩)

theorem set_param_room_regen (s : Engine) (v : ℚ) (hinit : s.initialized = true)
    (hch : (0.01 : ℚ) < |s.room_size - v|) :
    set_param_float_ 0 v s = regen_now { s with room_size := v } := by
  unfold set_param_float_ set_param_with
  rw [if_pos rfl]
  rw [if_pos]
  simp [hinit, hch]

theorem set_param_predelay_regen (s : Engine) (v : ℚ) (hinit : s.initialized = true)
    (hch : (0.01 : ℚ) < |s.pre_delay - (max (0 : ℚ) (min 100 v))|) :
    set_param_float_ 2 v s = regen_now { s with pre_delay := max (0 : ℚ) (min 100 v) } := by
  unfold set_param_float_ set_param_with
  rw [if_neg (by norm_num : ¬((2 : ℤ) = 0)), if_neg (by norm_num : ¬((2 : ℤ) = 1)), if_pos rfl]
  dsimp only
  rw [if_pos]
  simp [hinit, hch]

theorem set_param_damping_regen (s : Engine) (v : ℚ) (hinit : s.initialized = true)
    (hch : (0.01 : ℚ) < |s.damping - v|) :
    set_param_float_ 3 v s = regen_now { s with damping := v } := by
  unfold set_param_float_ set_param_with
  rw [if_neg (by norm_num : ¬((3 : ℤ) = 0)), if_neg (by norm_num : ¬((3 : ℤ) = 1)), if_neg (by norm_num : ¬((3 : ℤ) = 2)), if_pos rfl]
  rw [if_pos]
  simp [hinit, hch]

theorem set_param_lowfreq_regen (s : Engine) (v : ℚ) (hinit : s.initialized = true)
    (hch : (0.01 : ℚ) < |s.low_freq - v|) :
    set_param_float_ 4 v s = regen_now { s with low_freq := v } := by
  unfold set_param_float_ set_param_with
  rw [if_neg (by norm_num : ¬((4 : ℤ) = 0)), if_neg (by norm_num : ¬((4 : ℤ) = 1)), if_neg (by norm_num : ¬((4 : ℤ) = 2)), if_neg (by norm_num : ¬((4 : ℤ) = 3)), if_pos rfl]
  rw [if_pos]
  simp [hinit, hch]

theorem set_param_diffusion_regen (s : Engine) (v : ℚ) (hinit : s.initialized = true)
    (hch : (0.01 : ℚ) < |s.diffusion - v|) :
    set_param_float_ 5 v s = regen_now { s with diffusion := v } := by
  unfold set_param_float_ set_param_with
  rw [if_neg (by norm_num : ¬((5 : ℤ) = 0)), if_neg (by norm_num : ¬((5 : ℤ) = 1)), if_neg (by norm_num : ¬((5 : ℤ) = 2)), if_neg (by norm_num : ¬((5 : ℤ) = 3)), if_neg (by norm_num : ¬((5 : ℤ) = 4)), if_pos rfl]
  rw [if_pos]
  simp [hinit, hch]

theorem set_param_earlyrefl_regen (s : Engine) (v : ℚ) (hinit : s.initialized = true)
    (hch : (0.01 : ℚ) < |s.early_reflections - v|) :
    set_param_float_ 7 v s = regen_now { s with early_reflections := v } := by
  unfold set_param_float_ set_param_with
  rw [if_neg (by norm_num : ¬((7 : ℤ) = 0)), if_neg (by norm_num : ¬((7 : ℤ) = 1)), if_neg (by norm_num : ¬((7 : ℤ) = 2)), if_neg (by norm_num : ¬((7 : ℤ) = 3)), if_neg (by norm_num : ¬((7 : ℤ) = 4)), if_neg (by norm_num : ¬((7 : ℤ) = 5)), if_neg (by norm_num : ¬((7 : ℤ) = 6)), if_pos rfl]
  rw [if_pos]
  simp [hinit, hch]
theorem regen_now_impulse_response (s : Engine) :
    (regen_now s).impulse_response =
      (generate_impulse_response { s with ir_needs_update := true }).impulse_response := by
  unfold regen_now
  dsimp only
  split <;> rfl

theorem regen_now_conv_history (s : Engine) (b : ℤ → ℝ) (h : s.conv_history = some b) :
    (regen_now s).conv_history = some (fun _ => 0) := by
  unfold regen_now
  dsimp only
  have hg : (generate_impulse_response { s with ir_needs_update := true }).conv_history =
      some b := h
  rw [hg]

theorem regen_now_spec (s : Engine) :
    (regen_now s).ir_needs_update = false ∧
    (regen_now s).ir_length = compute_ir_length { s with ir_needs_update := true } ∧
    (regen_now s).impulse_response =
      (generate_impulse_response { s with ir_needs_update := true }).impulse_response ∧
    (∀ b : ℤ → ℝ, s.conv_history = some b →
      (regen_now s).conv_history = some (fun _ => 0) ∧ (regen_now s).history_pos = 0) :=
  ⟨regen_now_ir_needs_update s, regen_now_ir_length s, regen_now_impulse_response s,
   fun b hb => ⟨regen_now_conv_history s b hb, regen_now_history_pos s b hb⟩⟩

theorem set_ir_type_init_regen (nm : String) (s : Engine)
    (hinit : s.initialized = true)
    (hch : variant_code (nm.take 31) s.ir_type ≠ s.ir_type) :
    set_ir_type_ nm s =
      regen_now { s with ir_type := variant_code (nm.take 31) s.ir_type } := by
  unfold set_ir_type_
  dsimp only
  generalize hg : variant_code (nm.take 31) s.ir_type = nt
  rw [hg] at hch
  rw [if_pos hch, if_pos hinit]

theorem set_ir_type_uninit_frame (nm : String) (s : Engine)
    (h : s.initialized = false) :
    (set_ir_type_ nm s).impulse_response = s.impulse_response ∧
    (set_ir_type_ nm s).ir_length = s.ir_length ∧
    (set_ir_type_ nm s).conv_history = s.conv_history ∧
    (set_ir_type_ nm s).history_pos = s.history_pos := by
  unfold set_ir_type_
  dsimp only
  split_ifs with h1 h2
  · rw [h] at h2
    exact absurd h2 (by simp)
  · exact ⟨rfl, rfl, rfl, rfl⟩
  · exact ⟨rfl, rfl, rfl, rfl⟩

/-- C3 amended: the claim's deferral holds only for an uninitialized
engine.  (a) With the engine uninitialized, a numeric parameter write has
no effect beyond the stored value — it does not even set the dirty flag —
and a variant change touches only the variant and the dirty flag.
(b) With the engine initialized, a write to any regenerating parameter
(roomSize, decayTime, preDelay, damping, lowFreq, diffusion,
earlyReflections) that differs from the stored value by more than the
0.01 tolerance, or a variant change to a different recognized type,
performs IR synthesis immediately inside the setter: the resulting state
is exactly `regen_now` of the value-updated state, i.e. the dirty flag
ends cleared, the IR length and the IR buffer are recomputed by the
synthesizer from the new parameters, and the convolution history (when
allocated) is zeroed with its cursor reset. -/
theorem c3_setter_effects_amended :
    (∀ (pid : ℤ) (v : ℚ) (s : Engine), s.initialized = false →
      (set_param_float_ pid v s).ir_needs_update = s.ir_needs_update ∧
      (set_param_float_ pid v s).impulse_response = s.impulse_response ∧
      (set_param_float_ pid v s).ir_length = s.ir_length ∧
      (set_param_float_ pid v s).conv_history = s.conv_history ∧
      (set_param_float_ pid v s).history_pos = s.history_pos ∧
      (set_param_float_ pid v s).ir_type = s.ir_type) ∧
    (∀ (v : ℚ) (s : Engine), s.initialized = true →
      (0.01 : ℚ) < |s.room_size - v| →
      set_param_float_ 0 v s = regen_now { s with room_size := v }) ∧
    (∀ (v : ℚ) (s : Engine), s.initialized = true →
      (0.01 : ℚ) < |s.decay_time - max 0.1 (min 10 v)| →
      set_param_float_ 1 v s = regen_now { s with decay_time := max 0.1 (min 10 v) }) ∧
    (∀ (v : ℚ) (s : Engine), s.initialized = true →
      (0.01 : ℚ) < |s.pre_delay - (max (0 : ℚ) (min 100 v))| →
      set_param_float_ 2 v s = regen_now { s with pre_delay := max (0 : ℚ) (min 100 v) }) ∧
    (∀ (v : ℚ) (s : Engine), s.initialized = true →
      (0.01 : ℚ) < |s.damping - v| →
      set_param_float_ 3 v s = regen_now { s with damping := v }) ∧
    (∀ (v : ℚ) (s : Engine), s.initialized = true →
      (0.01 : ℚ) < |s.low_freq - v| →
      set_param_float_ 4 v s = regen_now { s with low_freq := v }) ∧
    (∀ (v : ℚ) (s : Engine), s.initialized = true →
      (0.01 : ℚ) < |s.diffusion - v| →
      set_param_float_ 5 v s = regen_now { s with diffusion := v }) ∧
    (∀ (v : ℚ) (s : Engine), s.initialized = true →
      (0.01 : ℚ) < |s.early_reflections - v| →
      set_param_float_ 7 v s = regen_now { s with early_reflections := v }) ∧
    (∀ (nm : String) (s : Engine), s.initialized = true →
      variant_code (nm.take 31) s.ir_type ≠ s.ir_type →
      set_ir_type_ nm s =
        regen_now { s with ir_type := variant_code (nm.take 31) s.ir_type }) ∧
    (∀ s : Engine,
      (regen_now s).ir_needs_update = false ∧
      (regen_now s).ir_length = compute_ir_length { s with ir_needs_update := true } ∧
      (regen_now s).impulse_response =
        (generate_impulse_response { s with ir_needs_update := true }).impulse_response ∧
      (∀ b : ℤ → ℝ, s.conv_history = some b →
        (regen_now s).conv_history = some (fun _ => 0) ∧ (regen_now s).history_pos = 0)) ∧
    (∀ (nm : String) (s : Engine), s.initialized = false →
      (set_ir_type_ nm s).impulse_response = s.impulse_response ∧
      (set_ir_type_ nm s).ir_length = s.ir_length ∧
      (set_ir_type_ nm s).conv_history = s.conv_history ∧
      (set_ir_type_ nm s).history_pos = s.history_pos) :=
  ⟨setter_uninit_frame,
   fun v s h1 h2 => set_param_room_regen s v h1 h2,
   fun v s h1 h2 => set_param_decay_regen s v h1 h2,
   fun v s h1 h2 => set_param_predelay_regen s v h1 h2,
   fun v s h1 h2 => set_param_damping_regen s v h1 h2,
   fun v s h1 h2 => set_param_lowfreq_regen s v h1 h2,
   fun v s h1 h2 => set_param_diffusion_regen s v h1 h2,
   fun v s h1 h2 => set_param_earlyrefl_regen s v h1 h2,
   set_ir_type_init_regen,
   regen_now_spec,
   set_ir_type_uninit_frame⟩

theorem engine_ready_room_abs : (0.01 : ℚ) < |engine_ready.room_size - (77 : ℚ)| := by
  have h1 : engine_ready.room_size = 50 := rfl
  rw [h1]
  have h3 : |(50 : ℚ) - 77| = 27 := by
    rw [abs_eq] <;> norm_num
  rw [h3]
  norm_num

set_option maxRecDepth 10000 in
/-- Witness for C3's amended statement at concrete inputs: an
uninitialized damping write, initialized room-size and decay writes, an
initialized variant change, the regeneration facts at the ready engine,
and an uninitialized variant change. -/
theorem c3_setter_effects_amended_witness :
    ((set_param_float_ 3 77 initialEngine).ir_needs_update = initialEngine.ir_needs_update ∧
     (set_param_float_ 3 77 initialEngine).impulse_response = initialEngine.impulse_response ∧
     (set_param_float_ 3 77 initialEngine).ir_length = initialEngine.ir_length ∧
     (set_param_float_ 3 77 initialEngine).conv_history = initialEngine.conv_history ∧
     (set_param_float_ 3 77 initialEngine).history_pos = initialEngine.history_pos ∧
     (set_param_float_ 3 77 initialEngine).ir_type = initialEngine.ir_type) ∧
    (set_param_float_ 0 77 engine_ready = regen_now { engine_ready with room_size := 77 }) ∧
    (set_param_float_ 1 5 engine_ready =
      regen_now { engine_ready with decay_time := max 0.1 (min 10 5) }) ∧
    (set_ir_type_ cathedral_name engine_ready =
      regen_now { engine_ready with
        ir_type := variant_code (cathedral_name.take 31) engine_ready.ir_type }) ∧
    ((regen_now engine_ready).ir_needs_update = false ∧
     (regen_now engine_ready).conv_history = some (fun _ => 0) ∧
     (regen_now engine_ready).history_pos = 0) ∧
    ((set_ir_type_ cathedral_name initialEngine).impulse_response =
      initialEngine.impulse_response) :=
  ⟨c3_setter_effects_amended.1 3 77 initialEngine rfl,
   c3_setter_effects_amended.2.1 77 engine_ready rfl engine_ready_room_abs,
   c3_setter_effects_amended.2.2.1 5 engine_ready rfl engine_ready_decay_abs,
   c3_setter_effects_amended.2.2.2.2.2.2.2.2.1 cathedral_name engine_ready rfl (by decide),
   ⟨(c3_setter_effects_amended.2.2.2.2.2.2.2.2.2.1 engine_ready).1,
    ((c3_setter_effects_amended.2.2.2.2.2.2.2.2.2.1 engine_ready).2.2.2
      (fun _ => 0) rfl).1,
    ((c3_setter_effects_amended.2.2.2.2.2.2.2.2.2.1 engine_ready).2.2.2
      (fun _ => 0) rfl).2⟩,
   (c3_setter_effects_amended.2.2.2.2.2.2.2.2.2.2 cathedral_name initialEngine rfl).1⟩

/-! ### C6: cleanup and re-initialization -/

theorem set_param_with_uninit (s' : Engine) (b : Bool) (hb : s'.initialized = false) :
    set_param_with s' b = s' := by
  unfold set_param_with
  rw [hb]
  simp

theorem set_param_float_uninit_decay (v : ℚ) (s : Engine) (h : s.initialized = false) :
    (set_param_float_ 1 v s).decay_time = max 0.1 (min 10 v) := by
  unfold set_param_float_
  norm_num
  rw [set_param_with_uninit]
  exact h

theorem ensure_history_ir_length (t : Engine) :
    (ensure_history t).ir_length = t.ir_length := by
  unfold ensure_history
  split <;> rfl

theorem regen_if_dirty_ir_length (s : Engine) (h : s.ir_needs_update = true) :
    (regen_if_dirty s).ir_length = compute_ir_length s := by
  unfold regen_if_dirty
  rw [h]
  rw [if_pos rfl]
  rfl

theorem process_ir_length_when_dirty (s : Engine) (inp : List ℝ)
    (h1 : s.initialized = true) (h2 : s.impulse_response.isNone = false)
    (h3 : s.ir_needs_update = true) :
    (process_convolution_ s inp).2.ir_length = compute_ir_length s := by
  by_cases hc : (!s.initialized || s.impulse_response.isNone) = true
  · rw [h1, h2] at hc
    simp at hc
  · unfold process_convolution_
    rw [if_neg hc]
    show (ensure_history (regen_if_dirty s)).ir_length = compute_ir_length s
    rw [ensure_history_ir_length, regen_if_dirty_ir_length s h3]

/-- The engine obtained by setting decay time to 5 s, tearing down, and
re-initializing at 48 kHz. -/
noncomputable def engine_cx_a : Engine :=
  init_convolution_engine_ 48000 true true true true true
    (cleanup_convolution_engine_ (set_param_float_ 1 5 initialEngine))

theorem engine_cx_a_decay : engine_cx_a.decay_time = 5 := by
  have h1 : engine_cx_a.decay_time = (set_param_float_ 1 5 initialEngine).decay_time := rfl
  rw [h1, set_param_float_uninit_decay 5 initialEngine rfl]
  norm_num

/-- C6 counterexample: `cleanup` followed by `initialize` does not return
the engine to its initial state: a decay time written before the teardown
survives it, so the re-initialized engine (decay 5 s) differs from a
freshly constructed-and-initialized engine (decay 2.5 s), and the very
first processing call on each regenerates IRs of different lengths
(240000 vs 120000 samples) — observably different behavior for the same
subsequent call sequence. -/
theorem c6_cleanup_reinit_counterexample :
    engine_cx_a.decay_time = 5 ∧ engine_ready.decay_time = 5/2 ∧
    (process_convolution_ engine_cx_a [0]).2.ir_length = 240000 ∧
    (process_convolution_ engine_ready [0]).2.ir_length = 120000 := by
  refine ⟨engine_cx_a_decay, rfl, ?_, ?_⟩
  · rw [process_ir_length_when_dirty engine_cx_a [0] rfl rfl rfl,
      compute_ir_length_at_48000 engine_cx_a rfl, engine_cx_a_decay]
    norm_num [rtrunc]
  · rw [process_ir_length_when_dirty engine_ready [0] rfl rfl rfl,
      compute_ir_length_at_48000 engine_ready rfl,
      show engine_ready.decay_time = 5/2 from rfl]
    norm_num [rtrunc]

/-- C6 amended: `cleanup` releases the buffers and resets the cursor, the
counter and the initialized flag, and a following `initialize` restores a
ready engine with fresh buffers and the dirty flag set — but the parameter
values, the variant and the noise-generator state are *not* reset, so the
sequence reproduces fresh-engine behavior only when those happen to
coincide with the defaults. -/
theorem c6_cleanup_reinit_amended (s : Engine) (sr : ℤ) (a1 a2 a3 a4 a5 : Bool) :
    (init_convolution_engine_ sr a1 a2 a3 a4 a5 (cleanup_convolution_engine_ s)).initialized
      = true ∧
    (init_convolution_engine_ sr a1 a2 a3 a4 a5 (cleanup_convolution_engine_ s)).ir_needs_update
      = true ∧
    (init_convolution_engine_ sr a1 a2 a3 a4 a5 (cleanup_convolution_engine_ s)).history_pos
      = 0 ∧
    (init_convolution_engine_ sr a1 a2 a3 a4 a5 (cleanup_convolution_engine_ s)).process_counter
      = 0 ∧
    (init_convolution_engine_ sr a1 a2 a3 a4 a5 (cleanup_convolution_engine_ s)).sample_rate
      = sr ∧
    (init_convolution_engine_ sr a1 a2 a3 a4 a5 (cleanup_convolution_engine_ s)).impulse_response
      = (if a1 then some (fun _ => 0) else none) ∧
    (init_convolution_engine_ sr a1 a2 a3 a4 a5 (cleanup_convolution_engine_ s)).room_size
      = s.room_size ∧
    (init_convolution_engine_ sr a1 a2 a3 a4 a5 (cleanup_convolution_engine_ s)).decay_time
      = s.decay_time ∧
    (init_convolution_engine_ sr a1 a2 a3 a4 a5 (cleanup_convolution_engine_ s)).pre_delay
      = s.pre_delay ∧
    (init_convolution_engine_ sr a1 a2 a3 a4 a5 (cleanup_convolution_engine_ s)).damping
      = s.damping ∧
    (init_convolution_engine_ sr a1 a2 a3 a4 a5 (cleanup_convolution_engine_ s)).diffusion
      = s.diffusion ∧
    (init_convolution_engine_ sr a1 a2 a3 a4 a5 (cleanup_convolution_engine_ s)).low_freq
      = s.low_freq ∧
    (init_convolution_engine_ sr a1 a2 a3 a4 a5 (cleanup_convolution_engine_ s)).high_freq
      = s.high_freq ∧
    (init_convolution_engine_ sr a1 a2 a3 a4 a5 (cleanup_convolution_engine_ s)).early_reflections
      = s.early_reflections ∧
    (init_convolution_engine_ sr a1 a2 a3 a4 a5 (cleanup_convolution_engine_ s)).mix_level
      = s.mix_level ∧
    (init_convolution_engine_ sr a1 a2 a3 a4 a5 (cleanup_convolution_engine_ s)).ir_type
      = s.ir_type ∧
    (init_convolution_engine_ sr a1 a2 a3 a4 a5 (cleanup_convolution_engine_ s)).rand_state
      = s.rand_state :=
  ⟨rfl, rfl, rfl, rfl, rfl, rfl, rfl, rfl, rfl, rfl, rfl, rfl, rfl, rfl, rfl, rfl, rfl⟩

/-! ### C2: output boundedness -/

theorem abs_compress_le (x : ℝ) : |compress x| ≤ 9/5 := by
  unfold compress
  split_ifs with h1 h2
  · have hc : (0:ℝ) ≤ min (0.7 + (|x| - 0.7) * 0.3) 1.8 :=
      le_min (by nlinarith [abs_nonneg x]) (by norm_num)
    rw [one_mul, abs_of_nonneg hc]
    calc min (0.7 + (|x| - 0.7) * 0.3) 1.8 ≤ 1.8 := min_le_right _ _
      _ ≤ 9/5 := by norm_num
  · have hc : (0:ℝ) ≤ min (0.7 + (|x| - 0.7) * 0.3) 1.8 :=
      le_min (by nlinarith [abs_nonneg x]) (by norm_num)
    rw [neg_one_mul, abs_neg, abs_of_nonneg hc]
    calc min (0.7 + (|x| - 0.7) * 0.3) 1.8 ≤ 1.8 := min_le_right _ _
      _ ≤ 9/5 := by norm_num
  · push_neg at h1
    linarith

theorem limiter_id_of_abs_le (x : ℝ) (h : |x| ≤ 9/5) : limiter x = x := by
  rcases abs_le.mp h with ⟨hlo, hhi⟩
  unfold limiter
  rw [if_neg (by linarith), if_neg (by linarith)]

theorem abs_limiter_compress_le (x : ℝ) : |limiter (compress x)| ≤ 9/5 := by
  rw [limiter_id_of_abs_le _ (abs_compress_le x)]
  exact abs_compress_le x

theorem foldl_conv_step_bound (irA : ℤ → ℝ) (irLen : ℤ) (mb : Bool) (dry wet : ℝ)
    (xs : List ℝ) :
    ∀ acc : List ℝ × (ℤ → ℝ) × ℤ, (∀ y ∈ acc.1, |y| ≤ 9/5) →
    ∀ y ∈ (xs.foldl (conv_step irA irLen mb dry wet) acc).1, |y| ≤ 9/5 := by
  induction xs with
  | nil => intro acc h; exact h
  | cons x xs ih =>
    intro acc h
    rw [List.foldl_cons]
    apply ih
    intro y hy
    simp only [conv_step] at hy
    rcases List.mem_append.mp hy with hmem | hmem
    · exact h y hmem
    · rw [List.mem_singleton.mp hmem]
      exact abs_limiter_compress_le _

/-- C2: for every engine state whose initialization succeeded (flag set
and IR buffer present) and every finite input block, every sample produced
by `process_convolution_` has magnitude at most 9/5 = 1.8, the soft
limiter's documented ceiling.  In this real-valued model the outputs are
real numbers, so no NaN or infinity can be produced for finite input. -/
theorem c2_process_output_bounded (s : Engine) (input : List ℝ)
    (h1 : s.initialized = true) (h2 : s.impulse_response ≠ none) :
    ∀ y ∈ (process_convolution_ s input).1, |y| ≤ 9/5 := by
  intro y hy
  have hnone : s.impulse_response.isNone = false := by
    rcases hop : s.impulse_response with _ | b
    · exact absurd hop h2
    · rfl
  have hc : ¬ ((!s.initialized || s.impulse_response.isNone) = true) := by
    rw [h1, hnone]
    simp
  unfold process_convolution_ at hy
  rw [if_neg hc] at hy
  exact foldl_conv_step_bound _ _ _ _ _ input _ (by simp) y hy

/-- Witness for C2 on the successfully initialized engine and a concrete
block. -/
theorem c2_process_output_bounded_witness :
    (engine_ready.initialized = true ∧ engine_ready.impulse_response ≠ none) ∧
    ∀ y ∈ (process_convolution_ engine_ready [1, -5]).1, |y| ≤ 9/5 :=
  ⟨⟨rfl, by
      show (some (fun _ => (0:ℝ)) : Option (ℤ → ℝ)) ≠ none
      simp⟩,
   c2_process_output_bounded engine_ready [1, -5] rfl (by
      show (some (fun _ => (0:ℝ)) : Option (ℤ → ℝ)) ≠ none
      simp)⟩

/-! ### C1: monotonicity of the dry/wet law -/

set_option maxHeartbeats 1000000 in
theorem dry_gain_core_anti (x y : ℝ) (hxy : x ≤ y) :
    dry_gain_core y ≤ dry_gain_core x := by
  unfold dry_gain_core
  split_ifs <;> linarith

theorem wet_core_eval1 (m : ℝ) (h : m < 0.01) : wet_gain_core m = m * 1000 := by
  unfold wet_gain_core
  rw [if_pos h]
  norm_num

theorem wet_core_eval2 (m : ℝ) (h1 : ¬ m < 0.01) (h2 : m < 0.1) :
    wet_gain_core m = 10 * (m * 10) ^ ((2.5 : ℝ)) := by
  unfold wet_gain_core
  rw [if_neg h1, if_pos h2]
  norm_num

theorem wet_core_eval3 (m : ℝ) (h1 : ¬ m < 0.01) (h2 : ¬ m < 0.1) (h3 : m < 0.3) :
    wet_gain_core m = 316 * (m * 3.33) ^ ((1.5 : ℝ)) := by
  unfold wet_gain_core
  rw [if_neg h1, if_neg h2, if_pos h3]
  norm_num

theorem wet_core_eval4 (m : ℝ) (h1 : ¬ m < 0.01) (h2 : ¬ m < 0.1) (h3 : ¬ m < 0.3)
    (h4 : m < 0.5) : wet_gain_core m = 1000 + (m - 0.3) * 5000 := by
  unfold wet_gain_core
  rw [if_neg h1, if_neg h2, if_neg h3, if_pos h4]
  norm_num

theorem wet_core_eval5 (m : ℝ) (h1 : ¬ m < 0.01) (h2 : ¬ m < 0.1) (h3 : ¬ m < 0.3)
    (h4 : ¬ m < 0.5) (h5 : m < 0.8) :
    wet_gain_core m = 2000 * (m * 2) ^ (2 : ℕ) := by
  unfold wet_gain_core
  rw [if_neg h1, if_neg h2, if_neg h3, if_neg h4, if_pos h5]
  norm_num

theorem wet_core_eval6 (m : ℝ) (h1 : ¬ m < 0.01) (h2 : ¬ m < 0.1) (h3 : ¬ m < 0.3)
    (h4 : ¬ m < 0.5) (h5 : ¬ m < 0.8) :
    wet_gain_core m = 5120 * (m * 1.25) ^ (3 : ℕ) := by
  unfold wet_gain_core
  rw [if_neg h1, if_neg h2, if_neg h3, if_neg h4, if_neg h5]
  norm_num

theorem wet_b2_mono (x y : ℝ) (hx : 0 ≤ x) (hxy : x ≤ y) :
    10 * (x * 10) ^ ((2.5 : ℝ)) ≤ 10 * (y * 10) ^ ((2.5 : ℝ)) := by
  have := Real.rpow_le_rpow (x := x * 10) (y := y * 10)
    (by linarith) (by linarith) (by norm_num : (0:ℝ) ≤ 2.5)
  linarith

theorem wet_b2_le_ten (x : ℝ) (hx : 0 ≤ x) (hx' : x < 0.1) :
    10 * (x * 10) ^ ((2.5 : ℝ)) ≤ 10 := by
  have := Real.rpow_le_one (x := x * 10) (by linarith) (by linarith)
    (by norm_num : (0:ℝ) ≤ 2.5)
  linarith

theorem wet_b2_pos (x : ℝ) (hx : 0 < x) : 0 < 10 * (x * 10) ^ ((2.5 : ℝ)) := by
  have := Real.rpow_pos_of_pos (x := x * 10) (by linarith) 2.5
  linarith

theorem wet_b3_mono (x y : ℝ) (hx : 0 ≤ x) (hxy : x ≤ y) :
    316 * (x * 3.33) ^ ((1.5 : ℝ)) ≤ 316 * (y * 3.33) ^ ((1.5 : ℝ)) := by
  have := Real.rpow_le_rpow (x := x * 3.33) (y := y * 3.33)
    (by linarith) (by linarith) (by norm_num : (0:ℝ) ≤ 1.5)
  linarith

theorem wet_b3_ge_ten (x : ℝ) (hx : 0.1 ≤ x) (hx' : x < 0.3) :
    (10 : ℝ) ≤ 316 * (x * 3.33) ^ ((1.5 : ℝ)) := by
  have hb0 : (0.333 : ℝ) ≤ x * 3.33 := by linarith
  have hb1 : x * 3.33 ≤ 1 := by linarith
  have hsq : (x * 3.33) ^ ((2 : ℝ)) ≤ (x * 3.33) ^ ((1.5 : ℝ)) :=
    Real.rpow_le_rpow_of_exponent_ge (by linarith) hb1 (by norm_num)
  have h2 : (x * 3.33) ^ ((2 : ℝ)) = (x * 3.33) ^ (2 : ℕ) := Real.rpow_two _
  rw [h2] at hsq
  have hlow : (0.110889 : ℝ) ≤ (x * 3.33) ^ (2 : ℕ) := by nlinarith
  nlinarith

theorem wet_b3_le (x : ℝ) (hx : 0 ≤ x) (hx' : x < 0.3) :
    316 * (x * 3.33) ^ ((1.5 : ℝ)) ≤ 316 := by
  have := Real.rpow_le_one (x := x * 3.33) (by linarith) (by linarith)
    (by norm_num : (0:ℝ) ≤ 1.5)
  linarith

theorem wet_b5_mono (x y : ℝ) (hx : 0 ≤ x) (hxy : x ≤ y) :
    2000 * (x * 2) ^ (2 : ℕ) ≤ 2000 * (y * 2) ^ (2 : ℕ) := by
  nlinarith

theorem wet_b5_lb (x : ℝ) (hx : 0.5 ≤ x) : (2000 : ℝ) ≤ 2000 * (x * 2) ^ (2 : ℕ) := by
  nlinarith

theorem wet_b5_ub (x : ℝ) (hx : 0 ≤ x) (hx' : x < 0.8) :
    2000 * (x * 2) ^ (2 : ℕ) ≤ 5120 := by
  nlinarith

theorem wet_b6_mono (x y : ℝ) (hx : 0 ≤ x) (hxy : x ≤ y) :
    5120 * (x * 1.25) ^ (3 : ℕ) ≤ 5120 * (y * 1.25) ^ (3 : ℕ) := by
  have := pow_le_pow_left (by linarith : (0:ℝ) ≤ x * 1.25)
    (by linarith : x * 1.25 ≤ y * 1.25) 3
  linarith

theorem wet_b6_lb (x : ℝ) (hx : 0.8 ≤ x) : (5120 : ℝ) ≤ 5120 * (x * 1.25) ^ (3 : ℕ) := by
  have h1 : (1 : ℝ) ≤ x * 1.25 := by linarith
  have := pow_le_pow_left (by norm_num : (0:ℝ) ≤ 1) h1 3
  simp at this
  nlinarith

theorem wet_core_mono (m m' : ℝ) (hm : 0.01 ≤ m) (hmm : m ≤ m') (hm1 : m' ≤ 1) :
    wet_gain_core m ≤ wet_gain_core m' := by
  have hm0 : ¬ m < 0.01 := not_lt.mpr hm
  have hn0 : ¬ m' < 0.01 := not_lt.mpr (by linarith)
  rcases lt_or_le m 0.1 with a2 | a2
  · rw [wet_core_eval2 m hm0 a2]
    rcases lt_or_le m' 0.1 with b2 | b2
    · rw [wet_core_eval2 m' hn0 b2]
      exact wet_b2_mono m m' (by linarith) hmm
    · rcases lt_or_le m' 0.3 with b3 | b3
      · rw [wet_core_eval3 m' hn0 (not_lt.mpr b2) b3]
        exact le_trans (wet_b2_le_ten m (by linarith) a2) (wet_b3_ge_ten m' b2 b3)
      · rcases lt_or_le m' 0.5 with b4 | b4
        · rw [wet_core_eval4 m' hn0 (not_lt.mpr b2) (not_lt.mpr b3) b4]
          have := wet_b2_le_ten m (by linarith) a2
          linarith
        · rcases lt_or_le m' 0.8 with b5 | b5
          · rw [wet_core_eval5 m' hn0 (not_lt.mpr b2) (not_lt.mpr b3) (not_lt.mpr b4) b5]
            have h10 := wet_b2_le_ten m (by linarith) a2
            have h2000 := wet_b5_lb m' b4
            linarith
          · rw [wet_core_eval6 m' hn0 (not_lt.mpr b2) (not_lt.mpr b3) (not_lt.mpr b4)
              (not_lt.mpr b5)]
            have h10 := wet_b2_le_ten m (by linarith) a2
            have h5120 := wet_b6_lb m' b5
            linarith
  · rcases lt_or_le m 0.3 with a3 | a3
    · rw [wet_core_eval3 m hm0 (not_lt.mpr a2) a3]
      rcases lt_or_le m' 0.3 with b3 | b3
      · rw [wet_core_eval3 m' hn0 (not_lt.mpr (by linarith)) b3]
        exact wet_b3_mono m m' (by linarith) hmm
      · have h316 := wet_b3_le m (by linarith) a3
        rcases lt_or_le m' 0.5 with b4 | b4
        · rw [wet_core_eval4 m' hn0 (not_lt.mpr (by linarith)) (not_lt.mpr b3) b4]
          linarith
        · rcases lt_or_le m' 0.8 with b5 | b5
          · rw [wet_core_eval5 m' hn0 (not_lt.mpr (by linarith)) (not_lt.mpr b3)
              (not_lt.mpr b4) b5]
            have := wet_b5_lb m' b4
            linarith
          · rw [wet_core_eval6 m' hn0 (not_lt.mpr (by linarith)) (not_lt.mpr b3)
              (not_lt.mpr b4) (not_lt.mpr b5)]
            have := wet_b6_lb m' b5
            linarith
    · rcases lt_or_le m 0.5 with a4 | a4
      · rw [wet_core_eval4 m hm0 (not_lt.mpr (by linarith)) (not_lt.mpr a3) a4]
        rcases lt_or_le m' 0.5 with b4 | b4
        · rw [wet_core_eval4 m' hn0 (not_lt.mpr (by linarith)) (not_lt.mpr (by linarith)) b4]
          linarith
        · rcases lt_or_le m' 0.8 with b5 | b5
          · rw [wet_core_eval5 m' hn0 (not_lt.mpr (by linarith)) (not_lt.mpr (by linarith))
              (not_lt.mpr b4) b5]
            have := wet_b5_lb m' b4
            linarith
          · rw [wet_core_eval6 m' hn0 (not_lt.mpr (by linarith)) (not_lt.mpr (by linarith))
              (not_lt.mpr b4) (not_lt.mpr b5)]
            have := wet_b6_lb m' b5
            linarith
      · rcases lt_or_le m 0.8 with a5 | a5
        · rw [wet_core_eval5 m hm0 (not_lt.mpr (by linarith)) (not_lt.mpr a3)
            (not_lt.mpr a4) a5]
          rcases lt_or_le m' 0.8 with b5 | b5
          · rw [wet_core_eval5 m' hn0 (not_lt.mpr (by linarith)) (not_lt.mpr (by linarith))
              (not_lt.mpr (by linarith)) b5]
            exact wet_b5_mono m m' (by linarith) hmm
          · rw [wet_core_eval6 m' hn0 (not_lt.mpr (by linarith)) (not_lt.mpr (by linarith))
              (not_lt.mpr (by linarith)) (not_lt.mpr b5)]
            have hub := wet_b5_ub m (by linarith) a5
            have := wet_b6_lb m' b5
            linarith
        · rw [wet_core_eval6 m hm0 (not_lt.mpr (by linarith)) (not_lt.mpr a3)
            (not_lt.mpr a4) (not_lt.mpr a5)]
          rw [wet_core_eval6 m' hn0 (not_lt.mpr (by linarith)) (not_lt.mpr (by linarith))
            (not_lt.mpr (by linarith)) (not_lt.mpr (by linarith))]
          exact wet_b6_mono m m' (by linarith) hmm

theorem wet_core_pos (m : ℝ) (hm : 0.01 ≤ m) (hm1 : m ≤ 1) : 0 < wet_gain_core m := by
  have hm0 : ¬ m < 0.01 := not_lt.mpr hm
  rcases lt_or_le m 0.1 with a2 | a2
  · rw [wet_core_eval2 m hm0 a2]
    exact wet_b2_pos m (by linarith)
  · rcases lt_or_le m 0.3 with a3 | a3
    · rw [wet_core_eval3 m hm0 (not_lt.mpr a2) a3]
      have := wet_b3_ge_ten m a2 a3
      linarith
    · rcases lt_or_le m 0.5 with a4 | a4
      · rw [wet_core_eval4 m hm0 (not_lt.mpr (by linarith)) (not_lt.mpr a3) a4]
        linarith
      · rcases lt_or_le m 0.8 with a5 | a5
        · rw [wet_core_eval5 m hm0 (not_lt.mpr (by linarith)) (not_lt.mpr a3)
            (not_lt.mpr a4) a5]
          have := wet_b5_lb m a4
          linarith
        · rw [wet_core_eval6 m hm0 (not_lt.mpr (by linarith)) (not_lt.mpr a3)
            (not_lt.mpr a4) (not_lt.mpr a5)]
          have := wet_b6_lb m a5
          linarith

/-- C1 counterexample: the wet gain is not monotone in the mix level.  At
mix levels a = 0.9 and b = 1 (both in [0, 100], a ≤ b) the wet gain drops
from 9 to 10·0.1^2.5 ≈ 0.032: `wet_gain 1 < wet_gain 0.9`, contradicting
the claimed `wet_gain a ≤ wet_gain b`.  (This is the discontinuity between
the `mix < 0.01` branch, which ends at 10, and the `mix < 0.1` branch,
which starts near 0.) -/
theorem c1_wet_gain_monotonicity_counterexample :
    (0 : ℝ) ≤ 0.9 ∧ (0.9 : ℝ) ≤ 1 ∧ (1 : ℝ) ≤ 100 ∧
    wet_gain 1 < wet_gain 0.9 := by
  refine ⟨by norm_num, by norm_num, by norm_num, ?_⟩
  have h09 : wet_gain 0.9 = 9 := by
    unfold wet_gain
    rw [wet_core_eval1 _ (by norm_num)]
    norm_num
  have h1 : wet_gain 1 = 10 * ((1 : ℝ) / 100 * 10) ^ ((2.5 : ℝ)) := by
    unfold wet_gain
    rw [wet_core_eval2 _ (by norm_num) (by norm_num)]
  have hbase : (1 : ℝ) / 100 * 10 = 0.1 := by norm_num
  rw [h09, h1, hbase]
  have hle : ((0.1 : ℝ)) ^ ((2.5 : ℝ)) ≤ ((0.1 : ℝ)) ^ ((1 : ℝ)) :=
    Real.rpow_le_rpow_of_exponent_ge (by norm_num) (by norm_num) (by norm_num)
  rw [Real.rpow_one] at hle
  linarith

/-- C1 amended: the dry gain is monotone nonincreasing in the mix level on
[0, 100], exactly as claimed; the wet gain is monotone nondecreasing on
each side of the 1 % boundary (mix levels in [1, 100] and in [0, 1)
separately), but drops at mix level 1, so the claimed joint monotonicity
holds only away from that boundary. -/
theorem c1_mix_law_monotonicity_amended :
    (∀ a b : ℝ, 0 ≤ a → a ≤ b → b ≤ 100 → dry_gain b ≤ dry_gain a) ∧
    (∀ a b : ℝ, 1 ≤ a → a ≤ b → b ≤ 100 → wet_gain a ≤ wet_gain b) ∧
    (∀ a b : ℝ, 0 ≤ a → a ≤ b → b < 1 → wet_gain a ≤ wet_gain b) := by
  refine ⟨?_, ?_, ?_⟩
  · intro a b _ hab _
    exact dry_gain_core_anti (a / 100) (b / 100) (by linarith)
  · intro a b ha hab hb
    exact wet_core_mono (a / 100) (b / 100) (by linarith) (by linarith) (by linarith)
  · intro a b ha hab hb
    unfold wet_gain
    rw [wet_core_eval1 _ (by linarith), wet_core_eval1 _ (by linarith)]
    linarith

/-- Witness for C1's amended statement at concrete mix levels. -/
theorem c1_mix_law_monotonicity_amended_witness :
    dry_gain 50 ≤ dry_gain 30 ∧ wet_gain 30 ≤ wet_gain 50 ∧
    wet_gain 0.2 ≤ wet_gain 0.5 :=
  ⟨c1_mix_law_monotonicity_amended.1 30 50 (by norm_num) (by norm_num) (by norm_num),
   c1_mix_law_monotonicity_amended.2.1 30 50 (by norm_num) (by norm_num) (by norm_num),
   c1_mix_law_monotonicity_amended.2.2 0.2 0.5 (by norm_num) (by norm_num) (by norm_num)⟩

/-! ### C9: block-length-dependent wet gain -/

/-- C9: the wet gain used by `process_convolution_` depends on the block
length: for a block of at most 4096 samples the base wet gain is
multiplied by 5 and additionally by 2 for cathedral, 1.8 for plate and
2.2 for spring (1 for every other variant), relative to a block longer
than 4096 samples; for any mix level in [1, 100] the two effective gains
really differ, so the same samples processed in different block sizes are
scaled differently. -/
theorem c9_block_length_wet_boost (mix : ℝ) (irt n N : ℤ)
    (hn : n ≤ 4096) (hN : 4096 < N) :
    effective_wet_gain mix irt n = wet_gain mix * 5 * live_boost irt ∧
    effective_wet_gain mix irt N = wet_gain mix ∧
    (irt = 1 → live_boost irt = 2) ∧
    (irt = 3 → live_boost irt = 1.8) ∧
    (irt = 4 → live_boost irt = 2.2) ∧
    (irt ≠ 1 → irt ≠ 3 → irt ≠ 4 → live_boost irt = 1) ∧
    ((1 : ℝ) ≤ mix → mix ≤ 100 →
      effective_wet_gain mix irt N < effective_wet_gain mix irt n) := by
  have e1 : effective_wet_gain mix irt n = wet_gain mix * 5 * live_boost irt := by
    unfold effective_wet_gain
    rw [if_pos hn]
  have e2 : effective_wet_gain mix irt N = wet_gain mix := by
    unfold effective_wet_gain
    rw [if_neg (not_le.mpr hN)]
  refine ⟨e1, e2, ?_, ?_, ?_, ?_, ?_⟩
  · intro h
    simp [live_boost, h]
  · intro h
    simp [live_boost, h]
  · intro h
    simp [live_boost, h]
  · intro g1 g3 g4
    simp [live_boost, g1, g3, g4]
  · intro hm1 hm100
    rw [e1, e2]
    have hw : 0 < wet_gain mix := by
      unfold wet_gain
      exact wet_core_pos (mix / 100) (by linarith) (by linarith)
    have hb : (1 : ℝ) ≤ live_boost irt := by
      unfold live_boost
      split_ifs <;> norm_num
    nlinarith

/-- Witness for C9 at mix level 50, cathedral variant, block lengths 128
and 8192. -/
theorem c9_block_length_wet_boost_witness :
    effective_wet_gain 50 1 128 = wet_gain 50 * 5 * live_boost 1 ∧
    effective_wet_gain 50 1 8192 = wet_gain 50 ∧
    ((1 : ℤ) = 1 → live_boost 1 = 2) ∧
    ((1 : ℤ) = 3 → live_boost 1 = 1.8) ∧
    ((1 : ℤ) = 4 → live_boost 1 = 2.2) ∧
    ((1 : ℤ) ≠ 1 → (1 : ℤ) ≠ 3 → (1 : ℤ) ≠ 4 → live_boost 1 = 1) ∧
    ((1 : ℝ) ≤ 50 → (50 : ℝ) ≤ 100 →
      effective_wet_gain 50 1 8192 < effective_wet_gain 50 1 128) :=
  c9_block_length_wet_boost 50 1 128 8192 (by norm_num) (by norm_num)

/-! ### C10: the reachable variants -/

theorem variant_code_cases (t : String) (d : ℤ) :
    variant_code t d = d ∨ (0 ≤ variant_code t d ∧ variant_code t d ≤ 14) := by
  unfold variant_code
  by_cases h1 : t = "hall"
  · rw [if_pos h1]
    exact Or.inr (by decide)
  rw [if_neg h1]
  by_cases h2 : t = "cathedral"
  · rw [if_pos h2]
    exact Or.inr (by decide)
  rw [if_neg h2]
  by_cases h3 : t = "room"
  · rw [if_pos h3]
    exact Or.inr (by decide)
  rw [if_neg h3]
  by_cases h4 : t = "plate"
  · rw [if_pos h4]
    exact Or.inr (by decide)
  rw [if_neg h4]
  by_cases h5 : t = "spring"
  · rw [if_pos h5]
    exact Or.inr (by decide)
  rw [if_neg h5]
  by_cases h6 : t = "cave"
  · rw [if_pos h6]
    exact Or.inr (by decide)
  rw [if_neg h6]
  by_cases h7 : t = "shimmer"
  · rw [if_pos h7]
    exact Or.inr (by decide)
  rw [if_neg h7]
  by_cases h8 : t = "freeze"
  · rw [if_pos h8]
    exact Or.inr (by decide)
  rw [if_neg h8]
  by_cases h9 : t = "reverse"
  · rw [if_pos h9]
    exact Or.inr (by decide)
  rw [if_neg h9]
  by_cases h10 : t = "gated"
  · rw [if_pos h10]
    exact Or.inr (by decide)
  rw [if_neg h10]
  by_cases h11 : t = "chorus"
  · rw [if_pos h11]
    exact Or.inr (by decide)
  rw [if_neg h11]
  by_cases h12 : t = "alien"
  · rw [if_pos h12]
    exact Or.inr (by decide)
  rw [if_neg h12]
  by_cases h13 : t = "underwater"
  · rw [if_pos h13]
    exact Or.inr (by decide)
  rw [if_neg h13]
  by_cases h14 : t = "metallic"
  · rw [if_pos h14]
    exact Or.inr (by decide)
  rw [if_neg h14]
  by_cases h15 : t = "psychedelic"
  · rw [if_pos h15]
    exact Or.inr (by decide)
  rw [if_neg h15]
  exact Or.inl rfl

set_option maxHeartbeats 1000000 in
set_option maxRecDepth 4000 in
theorem set_ir_type_ir_type_bounds (nm : String) (s : Engine)
    (h0 : 0 ≤ s.ir_type) (h14 : s.ir_type ≤ 14) :
    0 ≤ (set_ir_type_ nm s).ir_type ∧ (set_ir_type_ nm s).ir_type ≤ 14 := by
  have hnt : 0 ≤ variant_code (nm.take 31) s.ir_type ∧
      variant_code (nm.take 31) s.ir_type ≤ 14 := by
    rcases variant_code_cases (nm.take 31) s.ir_type with h | h
    · rw [h]
      exact ⟨h0, h14⟩
    · exact h
  unfold set_ir_type_
  dsimp only
  generalize hg : variant_code (nm.take 31) s.ir_type = nt
  rw [hg] at hnt
  split_ifs with hne hinit
  · rw [regen_now_ir_type]
    exact hnt
  · exact hnt
  · exact ⟨h0, h14⟩

theorem apply_op_ir_type_bounds (op : PublicOp) (s : Engine)
    (h0 : 0 ≤ s.ir_type) (h14 : s.ir_type ≤ 14) :
    0 ≤ (apply_op op s).ir_type ∧ (apply_op op s).ir_type ≤ 14 := by
  cases op with
  | initOp sr a1 a2 a3 a4 a5 => exact ⟨h0, h14⟩
  | processOp input =>
    show 0 ≤ (process_convolution_ s input).2.ir_type ∧
      (process_convolution_ s input).2.ir_type ≤ 14
    rw [process_ir_type]
    exact ⟨h0, h14⟩
  | setParamOp pid v =>
    show 0 ≤ (set_param_float_ pid v s).ir_type ∧ (set_param_float_ pid v s).ir_type ≤ 14
    rw [set_param_float_ir_type]
    exact ⟨h0, h14⟩
  | setParamByNameOp nm v =>
    show 0 ≤ (set_parameter_ nm v s).ir_type ∧ (set_parameter_ nm v s).ir_type ≤ 14
    rw [set_parameter_ir_type]
    exact ⟨h0, h14⟩
  | setIrTypeOp nm => exact set_ir_type_ir_type_bounds nm s h0 h14
  | cleanupOp => exact ⟨h0, h14⟩

theorem run_ops_ir_type_bounds (ops : List PublicOp) :
    ∀ s : Engine, 0 ≤ s.ir_type → s.ir_type ≤ 14 →
    0 ≤ (run_ops ops s).ir_type ∧ (run_ops ops s).ir_type ≤ 14 := by
  induction ops with
  | nil => intro s h0 h14; exact ⟨h0, h14⟩
  | cons op rest ih =>
    intro s h0 h14
    obtain ⟨g0, g14⟩ := apply_op_ir_type_bounds op s h0 h14
    exact ih (apply_op op s) g0 g14

theorem set_ir_type_unrecognized (nm : String) (s : Engine)
    (h : nm.take 31 ∉ recognized_names) : (set_ir_type_ nm s).ir_type = s.ir_type := by
  have hv : variant_code (nm.take 31) s.ir_type = s.ir_type := by
    simp only [recognized_names, List.mem_cons, List.mem_nil_iff, or_false, not_or] at h
    obtain ⟨n1, n2, n3, n4, n5, n6, n7, n8, n9, n10, n11, n12, n13, n14, n15⟩ := h
    unfold variant_code
    rw [if_neg n1, if_neg n2, if_neg n3, if_neg n4, if_neg n5, if_neg n6, if_neg n7,
      if_neg n8, if_neg n9, if_neg n10, if_neg n11, if_neg n12, if_neg n13, if_neg n14,
      if_neg n15]
  unfold set_ir_type_
  dsimp only
  rw [hv]
  rw [if_neg (fun hh => hh rfl)]

/-- C10: after any sequence of public operations starting from the fresh
engine, the variant code stays in {0, ..., 14} — the fifteen variants
hall .. psychedelic; and `set_ir_type_` leaves the variant unchanged for
every string outside the fifteen recognized names, so the ten additional
defined variant codes (15..24: slapback .. nightmare) are unreachable
through the public interface. -/
theorem c10_variant_invariant :
    (∀ ops : List PublicOp, 0 ≤ (run_ops ops initialEngine).ir_type ∧
      (run_ops ops initialEngine).ir_type ≤ 14) ∧
    (∀ (nm : String) (s : Engine), nm.take 31 ∉ recognized_names →
      (set_ir_type_ nm s).ir_type = s.ir_type) :=
  ⟨fun ops => run_ops_ir_type_bounds ops initialEngine (by decide) (by decide),
   set_ir_type_unrecognized⟩

set_option maxRecDepth 10000 in
/-- Witness for C10: a concrete operation sequence, and the unrecognized
name "slapback" leaving the variant unchanged. -/
theorem c10_variant_invariant_witness :
    (0 ≤ (run_ops [PublicOp.setIrTypeOp cathedral_name] initialEngine).ir_type ∧
      (run_ops [PublicOp.setIrTypeOp cathedral_name] initialEngine).ir_type ≤ 14) ∧
    (set_ir_type_ slapback_name initialEngine).ir_type = initialEngine.ir_type :=
  ⟨c10_variant_invariant.1 [PublicOp.setIrTypeOp cathedral_name],
   c10_variant_invariant.2 slapback_name initialEngine (by decide)⟩
